import Mathlib

set_option maxRecDepth 8000

set_option maxHeartbeats 1000000

/-!
Shallow embedding of the SSD1306 status-display / Pong demo (src/main.py).

The program is a single poll-driven loop over module-level mutable state:
view navigation, a name-banner flag, a Pong mode flag, and the Pong game
fields (ball position/velocity as Python floats, paddle positions and the
score as Python ints).  Floats are modelled as rationals (every value the
program manipulates is exactly representable), ints as `Int`, and the
`random.choice` / `random.uniform` draws as explicit parameters threaded
through each loop iteration.  I/O (display drawing, GPIO sampling, sleeping)
has no effect on the modelled state and is elided; the per-tick button
samples (already inverted to "pressed", as the loop does with `not
button_X.value`) are the `Input` record.
-/

namespace Pong

/-- Display width in pixels (`oled.width`, the SSD1306 is 128x64). -/
def oled_width : Int := 128

/-- Display height in pixels (`oled.height`). -/
def oled_height : Int := 64

def PADDLE_WIDTH : Int := 3

def PADDLE_HEIGHT : Int := 16

def PADDLE_LEFT_X : Int := 2

/-- `PADDLE_RIGHT_X = 128 - PADDLE_WIDTH - 2`. -/
def PADDLE_RIGHT_X : Int := oled_width - PADDLE_WIDTH - 2

def BALL_RADIUS : Int := 3

/-- `NUM_VIEWS = 2` (clock/date view and IP view). -/
def NUM_VIEWS : Int := 2

/-- The module-level mutable state of main.py: the view index, the stored
previous button levels (`last_button_*`), the mode flags, and the Pong game
fields. -/
structure State where
  current_view : Int
  last_button_u : Bool
  last_button_d : Bool
  last_button_a : Bool
  last_button_b : Bool
  last_button_l : Bool
  last_button_r : Bool
  last_button_c : Bool
  name_mode : Bool
  pong_mode : Bool
  pong_game_over : Bool
  pong_score : Int
  paddle_left_y : Int
  paddle_right_y : Int
  ball_x : ℚ
  ball_y : ℚ
  ball_dx : ℚ
  ball_dy : ℚ
  ball_speed : ℚ
  deriving Repr, DecidableEq

/-- The random draws one loop iteration may consume: `random.choice([1, -1])`
and `random.choice([0.5, -0.5, 1, -1])` in `reset_pong_game`, and
`random.uniform(-3, 3)` at a left- or right-paddle hit in
`update_pong_game`. -/
structure Rand where
  sign_neg : Bool
  dy_choice : Fin 4
  uniform_left : ℚ
  uniform_right : ℚ
  deriving Repr, DecidableEq

/-- Value of `random.choice([1, -1])`: `-1` when the draw picked the second
element. -/
def signVal (b : Bool) : ℚ := if b then -1 else 1

/-- Value of `random.choice([0.5, -0.5, 1, -1])` indexed by the draw. -/
def dyVal : Fin 4 → ℚ
  | 0 => 1 / 2
  | 1 => -(1 / 2)
  | 2 => 1
  | 3 => -1

/-- Python `int()` applied to a float: truncation toward zero. -/
def py_int (q : ℚ) : Int := if 0 ≤ q then ⌊q⌋ else ⌈q⌉

/-- `reset_pong_game()` (main.py lines 132-145).  Note that `ball_speed` is
declared `global` there but never assigned. -/
def reset_pong_game (r : Rand) (s : State) : State :=
  { s with
    paddle_left_y := (oled_height - PADDLE_HEIGHT) / 2
    paddle_right_y := (oled_height - PADDLE_HEIGHT) / 2
    ball_x := ((oled_width / 2 : Int) : ℚ)
    ball_y := ((oled_height / 2 : Int) : ℚ)
    ball_dx := s.ball_speed * signVal r.sign_neg
    ball_dy := s.ball_speed * dyVal r.dy_choice
    pong_game_over := false
    pong_score := 0 }

/-- Ball integration: `ball_x += ball_dx; ball_y += ball_dy`. -/
def pong_move (s : State) : State :=
  { s with ball_x := s.ball_x + s.ball_dx, ball_y := s.ball_y + s.ball_dy }

/-- Top/bottom wall collision (main.py lines 160-165): clamp `ball_y` to the
boundary and negate `ball_dy` when the ball crossed a wall. -/
def pong_walls (s : State) : State :=
  if s.ball_y ≤ (BALL_RADIUS : ℚ) then
    { s with ball_y := (BALL_RADIUS : ℚ), ball_dy := -s.ball_dy }
  else if s.ball_y ≥ (oled_height : ℚ) - (BALL_RADIUS : ℚ) then
    { s with ball_y := (oled_height : ℚ) - (BALL_RADIUS : ℚ), ball_dy := -s.ball_dy }
  else s

/-- Left-paddle collision (main.py lines 168-179): a hit repositions the
ball, forces `ball_dx` positive, re-randomizes `ball_dy` and scores
`int(ball_speed)`; a miss that also crossed `x - r <= 0` ends the game. -/
def pong_left (r : Rand) (s : State) : State :=
  if s.ball_x - (BALL_RADIUS : ℚ) ≤ ((PADDLE_LEFT_X + PADDLE_WIDTH : Int) : ℚ) then
    if (s.paddle_left_y : ℚ) ≤ s.ball_y ∧ s.ball_y ≤ ((s.paddle_left_y + PADDLE_HEIGHT : Int) : ℚ) then
      { s with
        ball_x := ((PADDLE_LEFT_X + PADDLE_WIDTH + BALL_RADIUS : Int) : ℚ)
        ball_dx := |s.ball_dx|
        ball_dy := r.uniform_left
        pong_score := s.pong_score + py_int s.ball_speed }
    else if s.ball_x - (BALL_RADIUS : ℚ) ≤ 0 then
      { s with pong_game_over := true }
    else s
  else s

/-- Right-paddle collision (main.py lines 182-193), mirror of `pong_left`:
a hit forces `ball_dx` negative; a miss that crossed `x + r >= width` ends
the game. -/
def pong_right (r : Rand) (s : State) : State :=
  if s.ball_x + (BALL_RADIUS : ℚ) ≥ (PADDLE_RIGHT_X : ℚ) then
    if (s.paddle_right_y : ℚ) ≤ s.ball_y ∧ s.ball_y ≤ ((s.paddle_right_y + PADDLE_HEIGHT : Int) : ℚ) then
      { s with
        ball_x := ((PADDLE_RIGHT_X - BALL_RADIUS : Int) : ℚ)
        ball_dx := -|s.ball_dx|
        ball_dy := r.uniform_right
        pong_score := s.pong_score + py_int s.ball_speed }
    else if s.ball_x + (BALL_RADIUS : ℚ) ≥ (oled_width : ℚ) then
      { s with pong_game_over := true }
    else s
  else s

/-- `update_pong_game()` (main.py lines 148-193): early return on game over,
then move, wall bounce, left-paddle check, right-paddle check, in source
order. -/
def update_pong_game (r : Rand) (s : State) : State :=
  if s.pong_game_over then s
  else pong_right r (pong_left r (pong_walls (pong_move s)))

/-- The loop's edge test `button_x_pressed and last_button_x` (the stored
`last_button_x` is `not pressed` of the previous tick, i.e. the raw
active-low sample). -/
def edge (pressed last : Bool) : Bool := pressed && last

/-- One tick's button samples, after the loop's active-low inversion
(`not button_X.value`), together with that tick's random draws. -/
structure Input where
  u : Bool
  d : Bool
  a : Bool
  b : Bool
  l : Bool
  r : Bool
  c : Bool
  rnd : Rand
  deriving Repr, DecidableEq

/-- B-button handling (main.py lines 345-349): an edge toggles `pong_mode`
and, when the toggle turned it on, resets the game. -/
def b_toggle (i : Input) (s : State) : State :=
  if edge i.b s.last_button_b then
    let s1 := { s with pong_mode := !s.pong_mode }
    if s1.pong_mode then reset_pong_game i.rnd s1 else s1
  else s

/-- Up held (level, not edge): move both paddles up by 8, clamped at 0
(main.py lines 353-356). -/
def paddle_up (pressed : Bool) (s : State) : State :=
  if pressed then
    { s with
      paddle_left_y := max 0 (s.paddle_left_y - 8)
      paddle_right_y := max 0 (s.paddle_right_y - 8) }
  else s

/-- Down held (level, not edge): move both paddles down by 8, clamped at
`oled.height - PADDLE_HEIGHT` (main.py lines 358-361). -/
def paddle_down (pressed : Bool) (s : State) : State :=
  if pressed then
    { s with
      paddle_left_y := min (oled_height - PADDLE_HEIGHT) (s.paddle_left_y + 8)
      paddle_right_y := min (oled_height - PADDLE_HEIGHT) (s.paddle_right_y + 8) }
  else s

/-- L edge (main.py lines 363-368): `ball_speed = max(1, ball_speed - 1)`,
then re-derive `ball_dx` from the new speed keeping its sign when
nonzero. -/
def speed_dec (e : Bool) (s : State) : State :=
  if e then
    let s1 := { s with ball_speed := max 1 (s.ball_speed - 1) }
    if s1.ball_dx ≠ 0 then
      { s1 with ball_dx := s1.ball_speed * (if s1.ball_dx > 0 then 1 else -1) }
    else s1
  else s

/-- R edge (main.py lines 370-375): `ball_speed += 1` with no upper limit,
then re-derive `ball_dx` from the new speed keeping its sign when
nonzero. -/
def speed_inc (e : Bool) (s : State) : State :=
  if e then
    let s1 := { s with ball_speed := s.ball_speed + 1 }
    if s1.ball_dx ≠ 0 then
      { s1 with ball_dx := s1.ball_speed * (if s1.ball_dx > 0 then 1 else -1) }
    else s1
  else s

/-- C edge (main.py lines 377-379): restart only while `pong_game_over`. -/
def restart_ctl (e : Bool) (r : Rand) (s : State) : State :=
  if e && s.pong_game_over then reset_pong_game r s else s

/-- The Pong-mode control block (main.py lines 351-379), in source order:
Up level, Down level, L edge, R edge, C edge. -/
def pong_controls (i : Input) (s : State) : State :=
  restart_ctl (edge i.c s.last_button_c) i.rnd
    (speed_inc (edge i.r s.last_button_r)
      (speed_dec (edge i.l s.last_button_l)
        (paddle_down i.d (paddle_up i.u s))))

/-- The normal-mode control block (main.py lines 380-392): Up/Down edges
move `current_view` by ∓1 modulo `NUM_VIEWS` (Lean `%` on `Int` is `emod`,
matching Python `%` for a positive modulus), an A edge toggles
`name_mode`. -/
def normal_controls (i : Input) (s : State) : State :=
  let s1 := if edge i.u s.last_button_u then
      { s with current_view := (s.current_view - 1) % NUM_VIEWS } else s
  let s2 := if edge i.d s.last_button_d then
      { s1 with current_view := (s1.current_view + 1) % NUM_VIEWS } else s1
  if edge i.a s.last_button_a then { s2 with name_mode := !s2.name_mode } else s2

/-- Button state tracking (main.py lines 394-401): store `not pressed`
for every button, unconditionally, every tick. -/
def update_last (i : Input) (s : State) : State :=
  { s with
    last_button_u := !i.u
    last_button_d := !i.d
    last_button_a := !i.a
    last_button_b := !i.b
    last_button_l := !i.l
    last_button_r := !i.r
    last_button_c := !i.c }

/-- One iteration of the main loop (main.py lines 334-407): B toggle, mode
dispatch of the control blocks, button state tracking, then
`update_display()`, which steps the game exactly when `pong_mode` is on. -/
def tick (i : Input) (s : State) : State :=
  let s1 := b_toggle i s
  let s2 := if s1.pong_mode then pong_controls i s1 else normal_controls i s1
  let s3 := update_last i s2
  if s3.pong_mode then update_pong_game i.rnd s3 else s3

/-- The module-level initial values (main.py lines 95-129): view 0, all
stored button levels `True` (pull-up, not pressed), all modes off,
`ball_speed = 2.0`. -/
def initState : State where
  current_view := 0
  last_button_u := true
  last_button_d := true
  last_button_a := true
  last_button_b := true
  last_button_l := true
  last_button_r := true
  last_button_c := true
  name_mode := false
  pong_mode := false
  pong_game_over := false
  pong_score := 0
  paddle_left_y := 0
  paddle_right_y := 0
  ball_x := 0
  ball_y := 0
  ball_dx := 0
  ball_dy := 0
  ball_speed := 2

/-- Run the main loop from program start over a list of per-tick inputs. -/
def run (l : List Input) : State := l.foldl (fun s i => tick i s) initState

/-- A physically possible input: `random.uniform(-3, 3)` draws lie in
`[-3, 3]`. -/
def validInput (i : Input) : Prop :=
  -3 ≤ i.rnd.uniform_left ∧ i.rnd.uniform_left ≤ 3 ∧
  -3 ≤ i.rnd.uniform_right ∧ i.rnd.uniform_right ≤ 3

/-- A state is reachable when some finite sequence of physically possible
inputs drives the program from its initial state to it. -/
def Reaches (s : State) : Prop :=
  ∃ l : List Input, (∀ i ∈ l, validInput i) ∧ run l = s

/-! ### Concrete input sequences

These drive the program from its initial state into specific situations:
entering Pong with a chosen launch direction, pumping the speed with R
edges, parking the paddles at the bottom with held Down, losing the game on
the left edge, and navigating views around a name-banner toggle. -/

/-- A fixed draw: positive x-sign, `dy` choice `0.5`, uniforms `0`. -/
def r0 : Rand := { sign_neg := false, dy_choice := 0, uniform_left := 0, uniform_right := 0 }

/-- A tick with no button pressed. -/
def noInput : Input :=
  { u := false, d := false, a := false, b := false, l := false, r := false, c := false, rnd := r0 }

/-- Enter Pong (B edge) while holding Down; the reset draws launch the ball
to the right (`dx = +2`) and upward (`dy = -1`, choice `-0.5`). -/
def iStart : Input := { noInput with b := true, d := true, rnd := { r0 with dy_choice := 1 } }

/-- Enter Pong (B edge) while holding Down; the reset draws launch the ball
to the left (`dx = -2`) and upward (`dy = -1`). -/
def iStartL : Input :=
  { noInput with b := true, d := true, rnd := { r0 with sign_neg := true, dy_choice := 1 } }

/-- Hold Down and press R. -/
def iDR : Input := { noInput with d := true, r := true }

/-- Hold Down only. -/
def iD : Input := { noInput with d := true }

/-- Press R only. -/
def iR : Input := { noInput with r := true }

/-- Press A only. -/
def iA : Input := { noInput with a := true }

/-- Press L while holding Up. -/
def iLU : Input := { noInput with l := true, u := true }

/-- Twelve ticks: enter Pong rightward, park the paddles at the bottom with
three held Downs, then pump the speed to 8 with six R edges.  Leaves the
ball at `(124, 20)` with `dx = 8`, paddles at 48, still `Playing`. -/
def c3_trace : List Input :=
  [iStart, iDR, iD, iR, noInput, iR, noInput, iR, noInput, iR, noInput, iR]

/-- Thirty-one ticks: enter Pong leftward, park the paddles at the bottom,
then coast until the ball passes the (out-of-range) left paddle.  Ends in
`GameOver` with `ball_speed = 2`, `ball_dx = -2` and paddles at 48. -/
def c1_trace : List Input :=
  [iStartL, iD, iD, noInput, noInput, noInput, noInput, noInput, noInput, noInput,
    noInput, noInput, noInput, noInput, noInput, noInput, noInput, noInput, noInput,
    noInput, noInput, noInput, noInput, noInput, noInput, noInput, noInput, noInput,
    noInput, noInput, noInput]

/-- The ball at `(118, 32)` moving `(+4, 0)` with speed `2` and the right
paddle at height `p`: the c4 witness scenario. -/
def c4state (p : Int) : State :=
  { initState with
    ball_x := 118
    ball_y := 32
    ball_dx := 4
    ball_dy := 0
    paddle_right_y := p }

/-- A GameOver Pong state with the paddles at `48`, the ball stopped at
`(2, 5)` moving `(-2, 1)` at speed `2`: the c1 witness scenario. -/
def c1wit : State :=
  State.mk 0 true true true true true true true false true true 0 48 48 2 5 (-2) 1 2

/-- A Playing state with the ball just above the top wall, moving up. -/
def c3low : State :=
  State.mk 0 true true true true true true true false false false 0 0 0 0 2 0 (-1) 2

/-- A Playing state with the ball just below the bottom wall, moving down. -/
def c3high : State :=
  State.mk 0 true true true true true true true false false false 0 0 0 0 60 0 5 2

/-! ### Frame lemmas

Fields each piece of the loop leaves untouched. -/

lemma pong_move_frame (s : State) :
    (pong_move s).current_view = s.current_view ∧
    (pong_move s).name_mode = s.name_mode ∧
    (pong_move s).pong_mode = s.pong_mode ∧
    (pong_move s).last_button_u = s.last_button_u ∧
    (pong_move s).last_button_d = s.last_button_d ∧
    (pong_move s).last_button_a = s.last_button_a ∧
    (pong_move s).last_button_b = s.last_button_b ∧
    (pong_move s).last_button_l = s.last_button_l ∧
    (pong_move s).last_button_r = s.last_button_r ∧
    (pong_move s).last_button_c = s.last_button_c ∧
    (pong_move s).paddle_left_y = s.paddle_left_y ∧
    (pong_move s).paddle_right_y = s.paddle_right_y ∧
    (pong_move s).ball_speed = s.ball_speed ∧
    (pong_move s).ball_dx = s.ball_dx ∧
    (pong_move s).ball_dy = s.ball_dy ∧
    (pong_move s).pong_score = s.pong_score ∧
    (pong_move s).pong_game_over = s.pong_game_over :=
  ⟨rfl, rfl, rfl, rfl, rfl, rfl, rfl, rfl, rfl, rfl, rfl, rfl, rfl, rfl, rfl, rfl, rfl⟩

lemma pong_walls_frame (s : State) :
    (pong_walls s).current_view = s.current_view ∧
    (pong_walls s).name_mode = s.name_mode ∧
    (pong_walls s).pong_mode = s.pong_mode ∧
    (pong_walls s).last_button_u = s.last_button_u ∧
    (pong_walls s).last_button_d = s.last_button_d ∧
    (pong_walls s).last_button_a = s.last_button_a ∧
    (pong_walls s).last_button_b = s.last_button_b ∧
    (pong_walls s).last_button_l = s.last_button_l ∧
    (pong_walls s).last_button_r = s.last_button_r ∧
    (pong_walls s).last_button_c = s.last_button_c ∧
    (pong_walls s).paddle_left_y = s.paddle_left_y ∧
    (pong_walls s).paddle_right_y = s.paddle_right_y ∧
    (pong_walls s).ball_speed = s.ball_speed ∧
    (pong_walls s).ball_x = s.ball_x ∧
    (pong_walls s).ball_dx = s.ball_dx ∧
    (pong_walls s).pong_score = s.pong_score ∧
    (pong_walls s).pong_game_over = s.pong_game_over := by
  unfold pong_walls
  split_ifs <;>
    exact ⟨rfl, rfl, rfl, rfl, rfl, rfl, rfl, rfl, rfl, rfl, rfl, rfl, rfl, rfl, rfl, rfl, rfl⟩

lemma pong_left_frame (r : Rand) (s : State) :
    (pong_left r s).current_view = s.current_view ∧
    (pong_left r s).name_mode = s.name_mode ∧
    (pong_left r s).pong_mode = s.pong_mode ∧
    (pong_left r s).last_button_u = s.last_button_u ∧
    (pong_left r s).last_button_d = s.last_button_d ∧
    (pong_left r s).last_button_a = s.last_button_a ∧
    (pong_left r s).last_button_b = s.last_button_b ∧
    (pong_left r s).last_button_l = s.last_button_l ∧
    (pong_left r s).last_button_r = s.last_button_r ∧
    (pong_left r s).last_button_c = s.last_button_c ∧
    (pong_left r s).paddle_left_y = s.paddle_left_y ∧
    (pong_left r s).paddle_right_y = s.paddle_right_y ∧
    (pong_left r s).ball_speed = s.ball_speed ∧
    (pong_left r s).ball_y = s.ball_y := by
  unfold pong_left
  split_ifs <;>
    exact ⟨rfl, rfl, rfl, rfl, rfl, rfl, rfl, rfl, rfl, rfl, rfl, rfl, rfl, rfl⟩

lemma pong_right_frame (r : Rand) (s : State) :
    (pong_right r s).current_view = s.current_view ∧
    (pong_right r s).name_mode = s.name_mode ∧
    (pong_right r s).pong_mode = s.pong_mode ∧
    (pong_right r s).last_button_u = s.last_button_u ∧
    (pong_right r s).last_button_d = s.last_button_d ∧
    (pong_right r s).last_button_a = s.last_button_a ∧
    (pong_right r s).last_button_b = s.last_button_b ∧
    (pong_right r s).last_button_l = s.last_button_l ∧
    (pong_right r s).last_button_r = s.last_button_r ∧
    (pong_right r s).last_button_c = s.last_button_c ∧
    (pong_right r s).paddle_left_y = s.paddle_left_y ∧
    (pong_right r s).paddle_right_y = s.paddle_right_y ∧
    (pong_right r s).ball_speed = s.ball_speed ∧
    (pong_right r s).ball_y = s.ball_y := by
  unfold pong_right
  split_ifs <;>
    exact ⟨rfl, rfl, rfl, rfl, rfl, rfl, rfl, rfl, rfl, rfl, rfl, rfl, rfl, rfl⟩

lemma update_pong_game_frame (r : Rand) (s : State) :
    (update_pong_game r s).current_view = s.current_view ∧
    (update_pong_game r s).name_mode = s.name_mode ∧
    (update_pong_game r s).pong_mode = s.pong_mode ∧
    (update_pong_game r s).last_button_u = s.last_button_u ∧
    (update_pong_game r s).last_button_d = s.last_button_d ∧
    (update_pong_game r s).last_button_a = s.last_button_a ∧
    (update_pong_game r s).last_button_b = s.last_button_b ∧
    (update_pong_game r s).last_button_l = s.last_button_l ∧
    (update_pong_game r s).last_button_r = s.last_button_r ∧
    (update_pong_game r s).last_button_c = s.last_button_c ∧
    (update_pong_game r s).paddle_left_y = s.paddle_left_y ∧
    (update_pong_game r s).paddle_right_y = s.paddle_right_y ∧
    (update_pong_game r s).ball_speed = s.ball_speed := by
  unfold update_pong_game
  split_ifs with h
  · exact ⟨rfl, rfl, rfl, rfl, rfl, rfl, rfl, rfl, rfl, rfl, rfl, rfl, rfl⟩
  · simp only [pong_right_frame, pong_left_frame, pong_walls_frame, pong_move_frame, and_self]

lemma reset_pong_game_frame (r : Rand) (s : State) :
    (reset_pong_game r s).current_view = s.current_view ∧
    (reset_pong_game r s).name_mode = s.name_mode ∧
    (reset_pong_game r s).pong_mode = s.pong_mode ∧
    (reset_pong_game r s).last_button_u = s.last_button_u ∧
    (reset_pong_game r s).last_button_d = s.last_button_d ∧
    (reset_pong_game r s).last_button_a = s.last_button_a ∧
    (reset_pong_game r s).last_button_b = s.last_button_b ∧
    (reset_pong_game r s).last_button_l = s.last_button_l ∧
    (reset_pong_game r s).last_button_r = s.last_button_r ∧
    (reset_pong_game r s).last_button_c = s.last_button_c ∧
    (reset_pong_game r s).ball_speed = s.ball_speed :=
  ⟨rfl, rfl, rfl, rfl, rfl, rfl, rfl, rfl, rfl, rfl, rfl⟩

lemma paddle_up_frame (p : Bool) (s : State) :
    (paddle_up p s).current_view = s.current_view ∧
    (paddle_up p s).name_mode = s.name_mode ∧
    (paddle_up p s).pong_mode = s.pong_mode ∧
    (paddle_up p s).last_button_u = s.last_button_u ∧
    (paddle_up p s).last_button_d = s.last_button_d ∧
    (paddle_up p s).last_button_a = s.last_button_a ∧
    (paddle_up p s).last_button_b = s.last_button_b ∧
    (paddle_up p s).last_button_l = s.last_button_l ∧
    (paddle_up p s).last_button_r = s.last_button_r ∧
    (paddle_up p s).last_button_c = s.last_button_c ∧
    (paddle_up p s).ball_speed = s.ball_speed ∧
    (paddle_up p s).pong_game_over = s.pong_game_over ∧
    (paddle_up p s).ball_x = s.ball_x ∧
    (paddle_up p s).ball_y = s.ball_y ∧
    (paddle_up p s).ball_dx = s.ball_dx ∧
    (paddle_up p s).ball_dy = s.ball_dy ∧
    (paddle_up p s).pong_score = s.pong_score := by
  unfold paddle_up
  split_ifs <;>
    exact ⟨rfl, rfl, rfl, rfl, rfl, rfl, rfl, rfl, rfl, rfl, rfl, rfl, rfl, rfl, rfl, rfl, rfl⟩

lemma paddle_down_frame (p : Bool) (s : State) :
    (paddle_down p s).current_view = s.current_view ∧
    (paddle_down p s).name_mode = s.name_mode ∧
    (paddle_down p s).pong_mode = s.pong_mode ∧
    (paddle_down p s).last_button_u = s.last_button_u ∧
    (paddle_down p s).last_button_d = s.last_button_d ∧
    (paddle_down p s).last_button_a = s.last_button_a ∧
    (paddle_down p s).last_button_b = s.last_button_b ∧
    (paddle_down p s).last_button_l = s.last_button_l ∧
    (paddle_down p s).last_button_r = s.last_button_r ∧
    (paddle_down p s).last_button_c = s.last_button_c ∧
    (paddle_down p s).ball_speed = s.ball_speed ∧
    (paddle_down p s).pong_game_over = s.pong_game_over ∧
    (paddle_down p s).ball_x = s.ball_x ∧
    (paddle_down p s).ball_y = s.ball_y ∧
    (paddle_down p s).ball_dx = s.ball_dx ∧
    (paddle_down p s).ball_dy = s.ball_dy ∧
    (paddle_down p s).pong_score = s.pong_score := by
  unfold paddle_down
  split_ifs <;>
    exact ⟨rfl, rfl, rfl, rfl, rfl, rfl, rfl, rfl, rfl, rfl, rfl, rfl, rfl, rfl, rfl, rfl, rfl⟩

lemma speed_dec_frame (e : Bool) (s : State) :
    (speed_dec e s).current_view = s.current_view ∧
    (speed_dec e s).name_mode = s.name_mode ∧
    (speed_dec e s).pong_mode = s.pong_mode ∧
    (speed_dec e s).last_button_u = s.last_button_u ∧
    (speed_dec e s).last_button_d = s.last_button_d ∧
    (speed_dec e s).last_button_a = s.last_button_a ∧
    (speed_dec e s).last_button_b = s.last_button_b ∧
    (speed_dec e s).last_button_l = s.last_button_l ∧
    (speed_dec e s).last_button_r = s.last_button_r ∧
    (speed_dec e s).last_button_c = s.last_button_c ∧
    (speed_dec e s).pong_game_over = s.pong_game_over ∧
    (speed_dec e s).ball_x = s.ball_x ∧
    (speed_dec e s).ball_y = s.ball_y ∧
    (speed_dec e s).ball_dy = s.ball_dy ∧
    (speed_dec e s).pong_score = s.pong_score ∧
    (speed_dec e s).paddle_left_y = s.paddle_left_y ∧
    (speed_dec e s).paddle_right_y = s.paddle_right_y := by
  simp only [speed_dec]
  split_ifs <;>
    exact ⟨rfl, rfl, rfl, rfl, rfl, rfl, rfl, rfl, rfl, rfl, rfl, rfl, rfl, rfl, rfl, rfl, rfl⟩

lemma speed_inc_frame (e : Bool) (s : State) :
    (speed_inc e s).current_view = s.current_view ∧
    (speed_inc e s).name_mode = s.name_mode ∧
    (speed_inc e s).pong_mode = s.pong_mode ∧
    (speed_inc e s).last_button_u = s.last_button_u ∧
    (speed_inc e s).last_button_d = s.last_button_d ∧
    (speed_inc e s).last_button_a = s.last_button_a ∧
    (speed_inc e s).last_button_b = s.last_button_b ∧
    (speed_inc e s).last_button_l = s.last_button_l ∧
    (speed_inc e s).last_button_r = s.last_button_r ∧
    (speed_inc e s).last_button_c = s.last_button_c ∧
    (speed_inc e s).pong_game_over = s.pong_game_over ∧
    (speed_inc e s).ball_x = s.ball_x ∧
    (speed_inc e s).ball_y = s.ball_y ∧
    (speed_inc e s).ball_dy = s.ball_dy ∧
    (speed_inc e s).pong_score = s.pong_score ∧
    (speed_inc e s).paddle_left_y = s.paddle_left_y ∧
    (speed_inc e s).paddle_right_y = s.paddle_right_y := by
  simp only [speed_inc]
  split_ifs <;>
    exact ⟨rfl, rfl, rfl, rfl, rfl, rfl, rfl, rfl, rfl, rfl, rfl, rfl, rfl, rfl, rfl, rfl, rfl⟩

lemma restart_ctl_frame (e : Bool) (r : Rand) (s : State) :
    (restart_ctl e r s).current_view = s.current_view ∧
    (restart_ctl e r s).name_mode = s.name_mode ∧
    (restart_ctl e r s).pong_mode = s.pong_mode ∧
    (restart_ctl e r s).last_button_u = s.last_button_u ∧
    (restart_ctl e r s).last_button_d = s.last_button_d ∧
    (restart_ctl e r s).last_button_a = s.last_button_a ∧
    (restart_ctl e r s).last_button_b = s.last_button_b ∧
    (restart_ctl e r s).last_button_l = s.last_button_l ∧
    (restart_ctl e r s).last_button_r = s.last_button_r ∧
    (restart_ctl e r s).last_button_c = s.last_button_c ∧
    (restart_ctl e r s).ball_speed = s.ball_speed := by
  unfold restart_ctl
  split_ifs
  · exact reset_pong_game_frame r s
  · exact ⟨rfl, rfl, rfl, rfl, rfl, rfl, rfl, rfl, rfl, rfl, rfl⟩

lemma pong_controls_frame (i : Input) (s : State) :
    (pong_controls i s).current_view = s.current_view ∧
    (pong_controls i s).name_mode = s.name_mode ∧
    (pong_controls i s).pong_mode = s.pong_mode ∧
    (pong_controls i s).last_button_u = s.last_button_u ∧
    (pong_controls i s).last_button_d = s.last_button_d ∧
    (pong_controls i s).last_button_a = s.last_button_a ∧
    (pong_controls i s).last_button_b = s.last_button_b ∧
    (pong_controls i s).last_button_l = s.last_button_l ∧
    (pong_controls i s).last_button_r = s.last_button_r ∧
    (pong_controls i s).last_button_c = s.last_button_c := by
  unfold pong_controls
  simp only [restart_ctl_frame, speed_inc_frame, speed_dec_frame, paddle_down_frame,
    paddle_up_frame, and_self]

lemma normal_controls_frame (i : Input) (s : State) :
    (normal_controls i s).pong_mode = s.pong_mode ∧
    (normal_controls i s).pong_game_over = s.pong_game_over ∧
    (normal_controls i s).pong_score = s.pong_score ∧
    (normal_controls i s).paddle_left_y = s.paddle_left_y ∧
    (normal_controls i s).paddle_right_y = s.paddle_right_y ∧
    (normal_controls i s).ball_x = s.ball_x ∧
    (normal_controls i s).ball_y = s.ball_y ∧
    (normal_controls i s).ball_dx = s.ball_dx ∧
    (normal_controls i s).ball_dy = s.ball_dy ∧
    (normal_controls i s).ball_speed = s.ball_speed ∧
    (normal_controls i s).last_button_u = s.last_button_u ∧
    (normal_controls i s).last_button_d = s.last_button_d ∧
    (normal_controls i s).last_button_a = s.last_button_a ∧
    (normal_controls i s).last_button_b = s.last_button_b ∧
    (normal_controls i s).last_button_l = s.last_button_l ∧
    (normal_controls i s).last_button_r = s.last_button_r ∧
    (normal_controls i s).last_button_c = s.last_button_c := by
  unfold normal_controls
  split_ifs <;>
    exact ⟨rfl, rfl, rfl, rfl, rfl, rfl, rfl, rfl, rfl, rfl, rfl, rfl, rfl, rfl, rfl, rfl, rfl⟩

lemma b_toggle_frame (i : Input) (s : State) :
    (b_toggle i s).current_view = s.current_view ∧
    (b_toggle i s).name_mode = s.name_mode ∧
    (b_toggle i s).ball_speed = s.ball_speed ∧
    (b_toggle i s).last_button_u = s.last_button_u ∧
    (b_toggle i s).last_button_d = s.last_button_d ∧
    (b_toggle i s).last_button_a = s.last_button_a ∧
    (b_toggle i s).last_button_b = s.last_button_b ∧
    (b_toggle i s).last_button_l = s.last_button_l ∧
    (b_toggle i s).last_button_r = s.last_button_r ∧
    (b_toggle i s).last_button_c = s.last_button_c := by
  simp only [b_toggle, reset_pong_game]
  split_ifs <;>
    exact ⟨rfl, rfl, rfl, rfl, rfl, rfl, rfl, rfl, rfl, rfl⟩

/-! ### Additional helper lemmas -/

lemma speed_inc_speed (s : State) : (speed_inc true s).ball_speed = s.ball_speed + 1 := by
  simp only [speed_inc, if_true]
  split_ifs <;> rfl

lemma pong_controls_paddles (i : Input) (s : State)
    (h : s.paddle_left_y = s.paddle_right_y) :
    (pong_controls i s).paddle_left_y = (pong_controls i s).paddle_right_y := by
  have hpt : ∀ t : State, t.paddle_left_y = t.paddle_right_y →
      (speed_inc (edge i.r s.last_button_r)
          (speed_dec (edge i.l s.last_button_l) t)).paddle_left_y =
        (speed_inc (edge i.r s.last_button_r)
          (speed_dec (edge i.l s.last_button_l) t)).paddle_right_y := by
    intro t ht
    simp only [speed_inc_frame, speed_dec_frame]
    exact ht
  have hdu : (paddle_down i.d (paddle_up i.u s)).paddle_left_y =
      (paddle_down i.d (paddle_up i.u s)).paddle_right_y := by
    unfold paddle_down paddle_up
    split_ifs <;> simp [h]
  unfold pong_controls restart_ctl
  split_ifs
  · rfl
  · exact hpt _ hdu

/-! ### Concrete trace evaluations

Each lemma evaluates one loop iteration on an explicit state. -/

lemma c3_s1 : tick iStart (initState) =
    State.mk 0 true false true false true true true false true false 0 32 32 66 31 2 (-1) 2 := by
  norm_num [tick, b_toggle, pong_controls, normal_controls, paddle_up,
    paddle_down, speed_dec, speed_inc, restart_ctl, update_last, update_pong_game,
    pong_move, pong_walls, pong_left, pong_right, reset_pong_game, py_int, edge, signVal,
    dyVal, iStart, iStartL, iDR, iD, iR, iA, iLU, noInput, r0, initState, oled_width,
    oled_height, PADDLE_WIDTH, PADDLE_HEIGHT, PADDLE_LEFT_X, PADDLE_RIGHT_X, BALL_RADIUS,
    NUM_VIEWS, State.mk.injEq]

lemma c3_s2 : tick iDR (State.mk 0 true false true false true true true false true false 0 32 32 66 31 2 (-1) 2) =
    State.mk 0 true false true true true false true false true false 0 40 40 69 30 3 (-1) 3 := by
  norm_num [tick, b_toggle, pong_controls, normal_controls, paddle_up,
    paddle_down, speed_dec, speed_inc, restart_ctl, update_last, update_pong_game,
    pong_move, pong_walls, pong_left, pong_right, reset_pong_game, py_int, edge, signVal,
    dyVal, iStart, iStartL, iDR, iD, iR, iA, iLU, noInput, r0, initState, oled_width,
    oled_height, PADDLE_WIDTH, PADDLE_HEIGHT, PADDLE_LEFT_X, PADDLE_RIGHT_X, BALL_RADIUS,
    NUM_VIEWS, State.mk.injEq]

lemma c3_s3 : tick iD (State.mk 0 true false true true true false true false true false 0 40 40 69 30 3 (-1) 3) =
    State.mk 0 true false true true true true true false true false 0 48 48 72 29 3 (-1) 3 := by
  norm_num [tick, b_toggle, pong_controls, normal_controls, paddle_up,
    paddle_down, speed_dec, speed_inc, restart_ctl, update_last, update_pong_game,
    pong_move, pong_walls, pong_left, pong_right, reset_pong_game, py_int, edge, signVal,
    dyVal, iStart, iStartL, iDR, iD, iR, iA, iLU, noInput, r0, initState, oled_width,
    oled_height, PADDLE_WIDTH, PADDLE_HEIGHT, PADDLE_LEFT_X, PADDLE_RIGHT_X, BALL_RADIUS,
    NUM_VIEWS, State.mk.injEq]

lemma c3_s4 : tick iR (State.mk 0 true false true true true true true false true false 0 48 48 72 29 3 (-1) 3) =
    State.mk 0 true true true true true false true false true false 0 48 48 76 28 4 (-1) 4 := by
  norm_num [tick, b_toggle, pong_controls, normal_controls, paddle_up,
    paddle_down, speed_dec, speed_inc, restart_ctl, update_last, update_pong_game,
    pong_move, pong_walls, pong_left, pong_right, reset_pong_game, py_int, edge, signVal,
    dyVal, iStart, iStartL, iDR, iD, iR, iA, iLU, noInput, r0, initState, oled_width,
    oled_height, PADDLE_WIDTH, PADDLE_HEIGHT, PADDLE_LEFT_X, PADDLE_RIGHT_X, BALL_RADIUS,
    NUM_VIEWS, State.mk.injEq]

lemma c3_s5 : tick noInput (State.mk 0 true true true true true false true false true false 0 48 48 76 28 4 (-1) 4) =
    State.mk 0 true true true true true true true false true false 0 48 48 80 27 4 (-1) 4 := by
  norm_num [tick, b_toggle, pong_controls, normal_controls, paddle_up,
    paddle_down, speed_dec, speed_inc, restart_ctl, update_last, update_pong_game,
    pong_move, pong_walls, pong_left, pong_right, reset_pong_game, py_int, edge, signVal,
    dyVal, iStart, iStartL, iDR, iD, iR, iA, iLU, noInput, r0, initState, oled_width,
    oled_height, PADDLE_WIDTH, PADDLE_HEIGHT, PADDLE_LEFT_X, PADDLE_RIGHT_X, BALL_RADIUS,
    NUM_VIEWS, State.mk.injEq]

lemma c3_s6 : tick iR (State.mk 0 true true true true true true true false true false 0 48 48 80 27 4 (-1) 4) =
    State.mk 0 true true true true true false true false true false 0 48 48 85 26 5 (-1) 5 := by
  norm_num [tick, b_toggle, pong_controls, normal_controls, paddle_up,
    paddle_down, speed_dec, speed_inc, restart_ctl, update_last, update_pong_game,
    pong_move, pong_walls, pong_left, pong_right, reset_pong_game, py_int, edge, signVal,
    dyVal, iStart, iStartL, iDR, iD, iR, iA, iLU, noInput, r0, initState, oled_width,
    oled_height, PADDLE_WIDTH, PADDLE_HEIGHT, PADDLE_LEFT_X, PADDLE_RIGHT_X, BALL_RADIUS,
    NUM_VIEWS, State.mk.injEq]

lemma c3_s7 : tick noInput (State.mk 0 true true true true true false true false true false 0 48 48 85 26 5 (-1) 5) =
    State.mk 0 true true true true true true true false true false 0 48 48 90 25 5 (-1) 5 := by
  norm_num [tick, b_toggle, pong_controls, normal_controls, paddle_up,
    paddle_down, speed_dec, speed_inc, restart_ctl, update_last, update_pong_game,
    pong_move, pong_walls, pong_left, pong_right, reset_pong_game, py_int, edge, signVal,
    dyVal, iStart, iStartL, iDR, iD, iR, iA, iLU, noInput, r0, initState, oled_width,
    oled_height, PADDLE_WIDTH, PADDLE_HEIGHT, PADDLE_LEFT_X, PADDLE_RIGHT_X, BALL_RADIUS,
    NUM_VIEWS, State.mk.injEq]

lemma c3_s8 : tick iR (State.mk 0 true true true true true true true false true false 0 48 48 90 25 5 (-1) 5) =
    State.mk 0 true true true true true false true false true false 0 48 48 96 24 6 (-1) 6 := by
  norm_num [tick, b_toggle, pong_controls, normal_controls, paddle_up,
    paddle_down, speed_dec, speed_inc, restart_ctl, update_last, update_pong_game,
    pong_move, pong_walls, pong_left, pong_right, reset_pong_game, py_int, edge, signVal,
    dyVal, iStart, iStartL, iDR, iD, iR, iA, iLU, noInput, r0, initState, oled_width,
    oled_height, PADDLE_WIDTH, PADDLE_HEIGHT, PADDLE_LEFT_X, PADDLE_RIGHT_X, BALL_RADIUS,
    NUM_VIEWS, State.mk.injEq]

lemma c3_s9 : tick noInput (State.mk 0 true true true true true false true false true false 0 48 48 96 24 6 (-1) 6) =
    State.mk 0 true true true true true true true false true false 0 48 48 102 23 6 (-1) 6 := by
  norm_num [tick, b_toggle, pong_controls, normal_controls, paddle_up,
    paddle_down, speed_dec, speed_inc, restart_ctl, update_last, update_pong_game,
    pong_move, pong_walls, pong_left, pong_right, reset_pong_game, py_int, edge, signVal,
    dyVal, iStart, iStartL, iDR, iD, iR, iA, iLU, noInput, r0, initState, oled_width,
    oled_height, PADDLE_WIDTH, PADDLE_HEIGHT, PADDLE_LEFT_X, PADDLE_RIGHT_X, BALL_RADIUS,
    NUM_VIEWS, State.mk.injEq]

lemma c3_s10 : tick iR (State.mk 0 true true true true true true true false true false 0 48 48 102 23 6 (-1) 6) =
    State.mk 0 true true true true true false true false true false 0 48 48 109 22 7 (-1) 7 := by
  norm_num [tick, b_toggle, pong_controls, normal_controls, paddle_up,
    paddle_down, speed_dec, speed_inc, restart_ctl, update_last, update_pong_game,
    pong_move, pong_walls, pong_left, pong_right, reset_pong_game, py_int, edge, signVal,
    dyVal, iStart, iStartL, iDR, iD, iR, iA, iLU, noInput, r0, initState, oled_width,
    oled_height, PADDLE_WIDTH, PADDLE_HEIGHT, PADDLE_LEFT_X, PADDLE_RIGHT_X, BALL_RADIUS,
    NUM_VIEWS, State.mk.injEq]

lemma c3_s11 : tick noInput (State.mk 0 true true true true true false true false true false 0 48 48 109 22 7 (-1) 7) =
    State.mk 0 true true true true true true true false true false 0 48 48 116 21 7 (-1) 7 := by
  norm_num [tick, b_toggle, pong_controls, normal_controls, paddle_up,
    paddle_down, speed_dec, speed_inc, restart_ctl, update_last, update_pong_game,
    pong_move, pong_walls, pong_left, pong_right, reset_pong_game, py_int, edge, signVal,
    dyVal, iStart, iStartL, iDR, iD, iR, iA, iLU, noInput, r0, initState, oled_width,
    oled_height, PADDLE_WIDTH, PADDLE_HEIGHT, PADDLE_LEFT_X, PADDLE_RIGHT_X, BALL_RADIUS,
    NUM_VIEWS, State.mk.injEq]

lemma c3_s12 : tick iR (State.mk 0 true true true true true true true false true false 0 48 48 116 21 7 (-1) 7) =
    State.mk 0 true true true true true false true false true false 0 48 48 124 20 8 (-1) 8 := by
  norm_num [tick, b_toggle, pong_controls, normal_controls, paddle_up,
    paddle_down, speed_dec, speed_inc, restart_ctl, update_last, update_pong_game,
    pong_move, pong_walls, pong_left, pong_right, reset_pong_game, py_int, edge, signVal,
    dyVal, iStart, iStartL, iDR, iD, iR, iA, iLU, noInput, r0, initState, oled_width,
    oled_height, PADDLE_WIDTH, PADDLE_HEIGHT, PADDLE_LEFT_X, PADDLE_RIGHT_X, BALL_RADIUS,
    NUM_VIEWS, State.mk.injEq]

lemma c3_run : run c3_trace =
    State.mk 0 true true true true true false true false true false 0 48 48 124 20 8 (-1) 8 := by
  simp only [run, c3_trace, List.foldl]
  rw [c3_s1, c3_s2, c3_s3, c3_s4, c3_s5, c3_s6, c3_s7, c3_s8, c3_s9, c3_s10, c3_s11, c3_s12]

lemma c3_final : update_pong_game r0
    (State.mk 0 true true true true true false true false true false 0 48 48 124 20 8 (-1) 8) =
    State.mk 0 true true true true true false true false true true 0 48 48 132 19 8 (-1) 8 := by
  norm_num [tick, b_toggle, pong_controls, normal_controls, paddle_up,
    paddle_down, speed_dec, speed_inc, restart_ctl, update_last, update_pong_game,
    pong_move, pong_walls, pong_left, pong_right, reset_pong_game, py_int, edge, signVal,
    dyVal, iStart, iStartL, iDR, iD, iR, iA, iLU, noInput, r0, initState, oled_width,
    oled_height, PADDLE_WIDTH, PADDLE_HEIGHT, PADDLE_LEFT_X, PADDLE_RIGHT_X, BALL_RADIUS,
    NUM_VIEWS, State.mk.injEq]

lemma c1_s1 : tick iStartL (initState) =
    State.mk 0 true false true false true true true false true false 0 32 32 62 31 (-2) (-1) 2 := by
  norm_num [tick, b_toggle, pong_controls, normal_controls, paddle_up,
    paddle_down, speed_dec, speed_inc, restart_ctl, update_last, update_pong_game,
    pong_move, pong_walls, pong_left, pong_right, reset_pong_game, py_int, edge, signVal,
    dyVal, iStart, iStartL, iDR, iD, iR, iA, iLU, noInput, r0, initState, oled_width,
    oled_height, PADDLE_WIDTH, PADDLE_HEIGHT, PADDLE_LEFT_X, PADDLE_RIGHT_X, BALL_RADIUS,
    NUM_VIEWS, State.mk.injEq]

lemma c1_s2 : tick iD (State.mk 0 true false true false true true true false true false 0 32 32 62 31 (-2) (-1) 2) =
    State.mk 0 true false true true true true true false true false 0 40 40 60 30 (-2) (-1) 2 := by
  norm_num [tick, b_toggle, pong_controls, normal_controls, paddle_up,
    paddle_down, speed_dec, speed_inc, restart_ctl, update_last, update_pong_game,
    pong_move, pong_walls, pong_left, pong_right, reset_pong_game, py_int, edge, signVal,
    dyVal, iStart, iStartL, iDR, iD, iR, iA, iLU, noInput, r0, initState, oled_width,
    oled_height, PADDLE_WIDTH, PADDLE_HEIGHT, PADDLE_LEFT_X, PADDLE_RIGHT_X, BALL_RADIUS,
    NUM_VIEWS, State.mk.injEq]

lemma c1_s3 : tick iD (State.mk 0 true false true true true true true false true false 0 40 40 60 30 (-2) (-1) 2) =
    State.mk 0 true false true true true true true false true false 0 48 48 58 29 (-2) (-1) 2 := by
  norm_num [tick, b_toggle, pong_controls, normal_controls, paddle_up,
    paddle_down, speed_dec, speed_inc, restart_ctl, update_last, update_pong_game,
    pong_move, pong_walls, pong_left, pong_right, reset_pong_game, py_int, edge, signVal,
    dyVal, iStart, iStartL, iDR, iD, iR, iA, iLU, noInput, r0, initState, oled_width,
    oled_height, PADDLE_WIDTH, PADDLE_HEIGHT, PADDLE_LEFT_X, PADDLE_RIGHT_X, BALL_RADIUS,
    NUM_VIEWS, State.mk.injEq]

lemma c1_s4 : tick noInput (State.mk 0 true false true true true true true false true false 0 48 48 58 29 (-2) (-1) 2) =
    State.mk 0 true true true true true true true false true false 0 48 48 56 28 (-2) (-1) 2 := by
  norm_num [tick, b_toggle, pong_controls, normal_controls, paddle_up,
    paddle_down, speed_dec, speed_inc, restart_ctl, update_last, update_pong_game,
    pong_move, pong_walls, pong_left, pong_right, reset_pong_game, py_int, edge, signVal,
    dyVal, iStart, iStartL, iDR, iD, iR, iA, iLU, noInput, r0, initState, oled_width,
    oled_height, PADDLE_WIDTH, PADDLE_HEIGHT, PADDLE_LEFT_X, PADDLE_RIGHT_X, BALL_RADIUS,
    NUM_VIEWS, State.mk.injEq]

lemma c1_s5 : tick noInput (State.mk 0 true true true true true true true false true false 0 48 48 56 28 (-2) (-1) 2) =
    State.mk 0 true true true true true true true false true false 0 48 48 54 27 (-2) (-1) 2 := by
  norm_num [tick, b_toggle, pong_controls, normal_controls, paddle_up,
    paddle_down, speed_dec, speed_inc, restart_ctl, update_last, update_pong_game,
    pong_move, pong_walls, pong_left, pong_right, reset_pong_game, py_int, edge, signVal,
    dyVal, iStart, iStartL, iDR, iD, iR, iA, iLU, noInput, r0, initState, oled_width,
    oled_height, PADDLE_WIDTH, PADDLE_HEIGHT, PADDLE_LEFT_X, PADDLE_RIGHT_X, BALL_RADIUS,
    NUM_VIEWS, State.mk.injEq]

lemma c1_s6 : tick noInput (State.mk 0 true true true true true true true false true false 0 48 48 54 27 (-2) (-1) 2) =
    State.mk 0 true true true true true true true false true false 0 48 48 52 26 (-2) (-1) 2 := by
  norm_num [tick, b_toggle, pong_controls, normal_controls, paddle_up,
    paddle_down, speed_dec, speed_inc, restart_ctl, update_last, update_pong_game,
    pong_move, pong_walls, pong_left, pong_right, reset_pong_game, py_int, edge, signVal,
    dyVal, iStart, iStartL, iDR, iD, iR, iA, iLU, noInput, r0, initState, oled_width,
    oled_height, PADDLE_WIDTH, PADDLE_HEIGHT, PADDLE_LEFT_X, PADDLE_RIGHT_X, BALL_RADIUS,
    NUM_VIEWS, State.mk.injEq]

lemma c1_s7 : tick noInput (State.mk 0 true true true true true true true false true false 0 48 48 52 26 (-2) (-1) 2) =
    State.mk 0 true true true true true true true false true false 0 48 48 50 25 (-2) (-1) 2 := by
  norm_num [tick, b_toggle, pong_controls, normal_controls, paddle_up,
    paddle_down, speed_dec, speed_inc, restart_ctl, update_last, update_pong_game,
    pong_move, pong_walls, pong_left, pong_right, reset_pong_game, py_int, edge, signVal,
    dyVal, iStart, iStartL, iDR, iD, iR, iA, iLU, noInput, r0, initState, oled_width,
    oled_height, PADDLE_WIDTH, PADDLE_HEIGHT, PADDLE_LEFT_X, PADDLE_RIGHT_X, BALL_RADIUS,
    NUM_VIEWS, State.mk.injEq]

lemma c1_s8 : tick noInput (State.mk 0 true true true true true true true false true false 0 48 48 50 25 (-2) (-1) 2) =
    State.mk 0 true true true true true true true false true false 0 48 48 48 24 (-2) (-1) 2 := by
  norm_num [tick, b_toggle, pong_controls, normal_controls, paddle_up,
    paddle_down, speed_dec, speed_inc, restart_ctl, update_last, update_pong_game,
    pong_move, pong_walls, pong_left, pong_right, reset_pong_game, py_int, edge, signVal,
    dyVal, iStart, iStartL, iDR, iD, iR, iA, iLU, noInput, r0, initState, oled_width,
    oled_height, PADDLE_WIDTH, PADDLE_HEIGHT, PADDLE_LEFT_X, PADDLE_RIGHT_X, BALL_RADIUS,
    NUM_VIEWS, State.mk.injEq]

lemma c1_s9 : tick noInput (State.mk 0 true true true true true true true false true false 0 48 48 48 24 (-2) (-1) 2) =
    State.mk 0 true true true true true true true false true false 0 48 48 46 23 (-2) (-1) 2 := by
  norm_num [tick, b_toggle, pong_controls, normal_controls, paddle_up,
    paddle_down, speed_dec, speed_inc, restart_ctl, update_last, update_pong_game,
    pong_move, pong_walls, pong_left, pong_right, reset_pong_game, py_int, edge, signVal,
    dyVal, iStart, iStartL, iDR, iD, iR, iA, iLU, noInput, r0, initState, oled_width,
    oled_height, PADDLE_WIDTH, PADDLE_HEIGHT, PADDLE_LEFT_X, PADDLE_RIGHT_X, BALL_RADIUS,
    NUM_VIEWS, State.mk.injEq]

lemma c1_s10 : tick noInput (State.mk 0 true true true true true true true false true false 0 48 48 46 23 (-2) (-1) 2) =
    State.mk 0 true true true true true true true false true false 0 48 48 44 22 (-2) (-1) 2 := by
  norm_num [tick, b_toggle, pong_controls, normal_controls, paddle_up,
    paddle_down, speed_dec, speed_inc, restart_ctl, update_last, update_pong_game,
    pong_move, pong_walls, pong_left, pong_right, reset_pong_game, py_int, edge, signVal,
    dyVal, iStart, iStartL, iDR, iD, iR, iA, iLU, noInput, r0, initState, oled_width,
    oled_height, PADDLE_WIDTH, PADDLE_HEIGHT, PADDLE_LEFT_X, PADDLE_RIGHT_X, BALL_RADIUS,
    NUM_VIEWS, State.mk.injEq]

lemma c1_s11 : tick noInput (State.mk 0 true true true true true true true false true false 0 48 48 44 22 (-2) (-1) 2) =
    State.mk 0 true true true true true true true false true false 0 48 48 42 21 (-2) (-1) 2 := by
  norm_num [tick, b_toggle, pong_controls, normal_controls, paddle_up,
    paddle_down, speed_dec, speed_inc, restart_ctl, update_last, update_pong_game,
    pong_move, pong_walls, pong_left, pong_right, reset_pong_game, py_int, edge, signVal,
    dyVal, iStart, iStartL, iDR, iD, iR, iA, iLU, noInput, r0, initState, oled_width,
    oled_height, PADDLE_WIDTH, PADDLE_HEIGHT, PADDLE_LEFT_X, PADDLE_RIGHT_X, BALL_RADIUS,
    NUM_VIEWS, State.mk.injEq]

lemma c1_s12 : tick noInput (State.mk 0 true true true true true true true false true false 0 48 48 42 21 (-2) (-1) 2) =
    State.mk 0 true true true true true true true false true false 0 48 48 40 20 (-2) (-1) 2 := by
  norm_num [tick, b_toggle, pong_controls, normal_controls, paddle_up,
    paddle_down, speed_dec, speed_inc, restart_ctl, update_last, update_pong_game,
    pong_move, pong_walls, pong_left, pong_right, reset_pong_game, py_int, edge, signVal,
    dyVal, iStart, iStartL, iDR, iD, iR, iA, iLU, noInput, r0, initState, oled_width,
    oled_height, PADDLE_WIDTH, PADDLE_HEIGHT, PADDLE_LEFT_X, PADDLE_RIGHT_X, BALL_RADIUS,
    NUM_VIEWS, State.mk.injEq]

lemma c1_s13 : tick noInput (State.mk 0 true true true true true true true false true false 0 48 48 40 20 (-2) (-1) 2) =
    State.mk 0 true true true true true true true false true false 0 48 48 38 19 (-2) (-1) 2 := by
  norm_num [tick, b_toggle, pong_controls, normal_controls, paddle_up,
    paddle_down, speed_dec, speed_inc, restart_ctl, update_last, update_pong_game,
    pong_move, pong_walls, pong_left, pong_right, reset_pong_game, py_int, edge, signVal,
    dyVal, iStart, iStartL, iDR, iD, iR, iA, iLU, noInput, r0, initState, oled_width,
    oled_height, PADDLE_WIDTH, PADDLE_HEIGHT, PADDLE_LEFT_X, PADDLE_RIGHT_X, BALL_RADIUS,
    NUM_VIEWS, State.mk.injEq]

lemma c1_s14 : tick noInput (State.mk 0 true true true true true true true false true false 0 48 48 38 19 (-2) (-1) 2) =
    State.mk 0 true true true true true true true false true false 0 48 48 36 18 (-2) (-1) 2 := by
  norm_num [tick, b_toggle, pong_controls, normal_controls, paddle_up,
    paddle_down, speed_dec, speed_inc, restart_ctl, update_last, update_pong_game,
    pong_move, pong_walls, pong_left, pong_right, reset_pong_game, py_int, edge, signVal,
    dyVal, iStart, iStartL, iDR, iD, iR, iA, iLU, noInput, r0, initState, oled_width,
    oled_height, PADDLE_WIDTH, PADDLE_HEIGHT, PADDLE_LEFT_X, PADDLE_RIGHT_X, BALL_RADIUS,
    NUM_VIEWS, State.mk.injEq]

lemma c1_s15 : tick noInput (State.mk 0 true true true true true true true false true false 0 48 48 36 18 (-2) (-1) 2) =
    State.mk 0 true true true true true true true false true false 0 48 48 34 17 (-2) (-1) 2 := by
  norm_num [tick, b_toggle, pong_controls, normal_controls, paddle_up,
    paddle_down, speed_dec, speed_inc, restart_ctl, update_last, update_pong_game,
    pong_move, pong_walls, pong_left, pong_right, reset_pong_game, py_int, edge, signVal,
    dyVal, iStart, iStartL, iDR, iD, iR, iA, iLU, noInput, r0, initState, oled_width,
    oled_height, PADDLE_WIDTH, PADDLE_HEIGHT, PADDLE_LEFT_X, PADDLE_RIGHT_X, BALL_RADIUS,
    NUM_VIEWS, State.mk.injEq]

lemma c1_s16 : tick noInput (State.mk 0 true true true true true true true false true false 0 48 48 34 17 (-2) (-1) 2) =
    State.mk 0 true true true true true true true false true false 0 48 48 32 16 (-2) (-1) 2 := by
  norm_num [tick, b_toggle, pong_controls, normal_controls, paddle_up,
    paddle_down, speed_dec, speed_inc, restart_ctl, update_last, update_pong_game,
    pong_move, pong_walls, pong_left, pong_right, reset_pong_game, py_int, edge, signVal,
    dyVal, iStart, iStartL, iDR, iD, iR, iA, iLU, noInput, r0, initState, oled_width,
    oled_height, PADDLE_WIDTH, PADDLE_HEIGHT, PADDLE_LEFT_X, PADDLE_RIGHT_X, BALL_RADIUS,
    NUM_VIEWS, State.mk.injEq]

lemma c1_s17 : tick noInput (State.mk 0 true true true true true true true false true false 0 48 48 32 16 (-2) (-1) 2) =
    State.mk 0 true true true true true true true false true false 0 48 48 30 15 (-2) (-1) 2 := by
  norm_num [tick, b_toggle, pong_controls, normal_controls, paddle_up,
    paddle_down, speed_dec, speed_inc, restart_ctl, update_last, update_pong_game,
    pong_move, pong_walls, pong_left, pong_right, reset_pong_game, py_int, edge, signVal,
    dyVal, iStart, iStartL, iDR, iD, iR, iA, iLU, noInput, r0, initState, oled_width,
    oled_height, PADDLE_WIDTH, PADDLE_HEIGHT, PADDLE_LEFT_X, PADDLE_RIGHT_X, BALL_RADIUS,
    NUM_VIEWS, State.mk.injEq]

lemma c1_s18 : tick noInput (State.mk 0 true true true true true true true false true false 0 48 48 30 15 (-2) (-1) 2) =
    State.mk 0 true true true true true true true false true false 0 48 48 28 14 (-2) (-1) 2 := by
  norm_num [tick, b_toggle, pong_controls, normal_controls, paddle_up,
    paddle_down, speed_dec, speed_inc, restart_ctl, update_last, update_pong_game,
    pong_move, pong_walls, pong_left, pong_right, reset_pong_game, py_int, edge, signVal,
    dyVal, iStart, iStartL, iDR, iD, iR, iA, iLU, noInput, r0, initState, oled_width,
    oled_height, PADDLE_WIDTH, PADDLE_HEIGHT, PADDLE_LEFT_X, PADDLE_RIGHT_X, BALL_RADIUS,
    NUM_VIEWS, State.mk.injEq]

lemma c1_s19 : tick noInput (State.mk 0 true true true true true true true false true false 0 48 48 28 14 (-2) (-1) 2) =
    State.mk 0 true true true true true true true false true false 0 48 48 26 13 (-2) (-1) 2 := by
  norm_num [tick, b_toggle, pong_controls, normal_controls, paddle_up,
    paddle_down, speed_dec, speed_inc, restart_ctl, update_last, update_pong_game,
    pong_move, pong_walls, pong_left, pong_right, reset_pong_game, py_int, edge, signVal,
    dyVal, iStart, iStartL, iDR, iD, iR, iA, iLU, noInput, r0, initState, oled_width,
    oled_height, PADDLE_WIDTH, PADDLE_HEIGHT, PADDLE_LEFT_X, PADDLE_RIGHT_X, BALL_RADIUS,
    NUM_VIEWS, State.mk.injEq]

lemma c1_s20 : tick noInput (State.mk 0 true true true true true true true false true false 0 48 48 26 13 (-2) (-1) 2) =
    State.mk 0 true true true true true true true false true false 0 48 48 24 12 (-2) (-1) 2 := by
  norm_num [tick, b_toggle, pong_controls, normal_controls, paddle_up,
    paddle_down, speed_dec, speed_inc, restart_ctl, update_last, update_pong_game,
    pong_move, pong_walls, pong_left, pong_right, reset_pong_game, py_int, edge, signVal,
    dyVal, iStart, iStartL, iDR, iD, iR, iA, iLU, noInput, r0, initState, oled_width,
    oled_height, PADDLE_WIDTH, PADDLE_HEIGHT, PADDLE_LEFT_X, PADDLE_RIGHT_X, BALL_RADIUS,
    NUM_VIEWS, State.mk.injEq]

lemma c1_s21 : tick noInput (State.mk 0 true true true true true true true false true false 0 48 48 24 12 (-2) (-1) 2) =
    State.mk 0 true true true true true true true false true false 0 48 48 22 11 (-2) (-1) 2 := by
  norm_num [tick, b_toggle, pong_controls, normal_controls, paddle_up,
    paddle_down, speed_dec, speed_inc, restart_ctl, update_last, update_pong_game,
    pong_move, pong_walls, pong_left, pong_right, reset_pong_game, py_int, edge, signVal,
    dyVal, iStart, iStartL, iDR, iD, iR, iA, iLU, noInput, r0, initState, oled_width,
    oled_height, PADDLE_WIDTH, PADDLE_HEIGHT, PADDLE_LEFT_X, PADDLE_RIGHT_X, BALL_RADIUS,
    NUM_VIEWS, State.mk.injEq]

lemma c1_s22 : tick noInput (State.mk 0 true true true true true true true false true false 0 48 48 22 11 (-2) (-1) 2) =
    State.mk 0 true true true true true true true false true false 0 48 48 20 10 (-2) (-1) 2 := by
  norm_num [tick, b_toggle, pong_controls, normal_controls, paddle_up,
    paddle_down, speed_dec, speed_inc, restart_ctl, update_last, update_pong_game,
    pong_move, pong_walls, pong_left, pong_right, reset_pong_game, py_int, edge, signVal,
    dyVal, iStart, iStartL, iDR, iD, iR, iA, iLU, noInput, r0, initState, oled_width,
    oled_height, PADDLE_WIDTH, PADDLE_HEIGHT, PADDLE_LEFT_X, PADDLE_RIGHT_X, BALL_RADIUS,
    NUM_VIEWS, State.mk.injEq]

lemma c1_s23 : tick noInput (State.mk 0 true true true true true true true false true false 0 48 48 20 10 (-2) (-1) 2) =
    State.mk 0 true true true true true true true false true false 0 48 48 18 9 (-2) (-1) 2 := by
  norm_num [tick, b_toggle, pong_controls, normal_controls, paddle_up,
    paddle_down, speed_dec, speed_inc, restart_ctl, update_last, update_pong_game,
    pong_move, pong_walls, pong_left, pong_right, reset_pong_game, py_int, edge, signVal,
    dyVal, iStart, iStartL, iDR, iD, iR, iA, iLU, noInput, r0, initState, oled_width,
    oled_height, PADDLE_WIDTH, PADDLE_HEIGHT, PADDLE_LEFT_X, PADDLE_RIGHT_X, BALL_RADIUS,
    NUM_VIEWS, State.mk.injEq]

lemma c1_s24 : tick noInput (State.mk 0 true true true true true true true false true false 0 48 48 18 9 (-2) (-1) 2) =
    State.mk 0 true true true true true true true false true false 0 48 48 16 8 (-2) (-1) 2 := by
  norm_num [tick, b_toggle, pong_controls, normal_controls, paddle_up,
    paddle_down, speed_dec, speed_inc, restart_ctl, update_last, update_pong_game,
    pong_move, pong_walls, pong_left, pong_right, reset_pong_game, py_int, edge, signVal,
    dyVal, iStart, iStartL, iDR, iD, iR, iA, iLU, noInput, r0, initState, oled_width,
    oled_height, PADDLE_WIDTH, PADDLE_HEIGHT, PADDLE_LEFT_X, PADDLE_RIGHT_X, BALL_RADIUS,
    NUM_VIEWS, State.mk.injEq]

lemma c1_s25 : tick noInput (State.mk 0 true true true true true true true false true false 0 48 48 16 8 (-2) (-1) 2) =
    State.mk 0 true true true true true true true false true false 0 48 48 14 7 (-2) (-1) 2 := by
  norm_num [tick, b_toggle, pong_controls, normal_controls, paddle_up,
    paddle_down, speed_dec, speed_inc, restart_ctl, update_last, update_pong_game,
    pong_move, pong_walls, pong_left, pong_right, reset_pong_game, py_int, edge, signVal,
    dyVal, iStart, iStartL, iDR, iD, iR, iA, iLU, noInput, r0, initState, oled_width,
    oled_height, PADDLE_WIDTH, PADDLE_HEIGHT, PADDLE_LEFT_X, PADDLE_RIGHT_X, BALL_RADIUS,
    NUM_VIEWS, State.mk.injEq]

lemma c1_s26 : tick noInput (State.mk 0 true true true true true true true false true false 0 48 48 14 7 (-2) (-1) 2) =
    State.mk 0 true true true true true true true false true false 0 48 48 12 6 (-2) (-1) 2 := by
  norm_num [tick, b_toggle, pong_controls, normal_controls, paddle_up,
    paddle_down, speed_dec, speed_inc, restart_ctl, update_last, update_pong_game,
    pong_move, pong_walls, pong_left, pong_right, reset_pong_game, py_int, edge, signVal,
    dyVal, iStart, iStartL, iDR, iD, iR, iA, iLU, noInput, r0, initState, oled_width,
    oled_height, PADDLE_WIDTH, PADDLE_HEIGHT, PADDLE_LEFT_X, PADDLE_RIGHT_X, BALL_RADIUS,
    NUM_VIEWS, State.mk.injEq]

lemma c1_s27 : tick noInput (State.mk 0 true true true true true true true false true false 0 48 48 12 6 (-2) (-1) 2) =
    State.mk 0 true true true true true true true false true false 0 48 48 10 5 (-2) (-1) 2 := by
  norm_num [tick, b_toggle, pong_controls, normal_controls, paddle_up,
    paddle_down, speed_dec, speed_inc, restart_ctl, update_last, update_pong_game,
    pong_move, pong_walls, pong_left, pong_right, reset_pong_game, py_int, edge, signVal,
    dyVal, iStart, iStartL, iDR, iD, iR, iA, iLU, noInput, r0, initState, oled_width,
    oled_height, PADDLE_WIDTH, PADDLE_HEIGHT, PADDLE_LEFT_X, PADDLE_RIGHT_X, BALL_RADIUS,
    NUM_VIEWS, State.mk.injEq]

lemma c1_s28 : tick noInput (State.mk 0 true true true true true true true false true false 0 48 48 10 5 (-2) (-1) 2) =
    State.mk 0 true true true true true true true false true false 0 48 48 8 4 (-2) (-1) 2 := by
  norm_num [tick, b_toggle, pong_controls, normal_controls, paddle_up,
    paddle_down, speed_dec, speed_inc, restart_ctl, update_last, update_pong_game,
    pong_move, pong_walls, pong_left, pong_right, reset_pong_game, py_int, edge, signVal,
    dyVal, iStart, iStartL, iDR, iD, iR, iA, iLU, noInput, r0, initState, oled_width,
    oled_height, PADDLE_WIDTH, PADDLE_HEIGHT, PADDLE_LEFT_X, PADDLE_RIGHT_X, BALL_RADIUS,
    NUM_VIEWS, State.mk.injEq]

lemma c1_s29 : tick noInput (State.mk 0 true true true true true true true false true false 0 48 48 8 4 (-2) (-1) 2) =
    State.mk 0 true true true true true true true false true false 0 48 48 6 3 (-2) 1 2 := by
  norm_num [tick, b_toggle, pong_controls, normal_controls, paddle_up,
    paddle_down, speed_dec, speed_inc, restart_ctl, update_last, update_pong_game,
    pong_move, pong_walls, pong_left, pong_right, reset_pong_game, py_int, edge, signVal,
    dyVal, iStart, iStartL, iDR, iD, iR, iA, iLU, noInput, r0, initState, oled_width,
    oled_height, PADDLE_WIDTH, PADDLE_HEIGHT, PADDLE_LEFT_X, PADDLE_RIGHT_X, BALL_RADIUS,
    NUM_VIEWS, State.mk.injEq]

lemma c1_s30 : tick noInput (State.mk 0 true true true true true true true false true false 0 48 48 6 3 (-2) 1 2) =
    State.mk 0 true true true true true true true false true false 0 48 48 4 4 (-2) 1 2 := by
  norm_num [tick, b_toggle, pong_controls, normal_controls, paddle_up,
    paddle_down, speed_dec, speed_inc, restart_ctl, update_last, update_pong_game,
    pong_move, pong_walls, pong_left, pong_right, reset_pong_game, py_int, edge, signVal,
    dyVal, iStart, iStartL, iDR, iD, iR, iA, iLU, noInput, r0, initState, oled_width,
    oled_height, PADDLE_WIDTH, PADDLE_HEIGHT, PADDLE_LEFT_X, PADDLE_RIGHT_X, BALL_RADIUS,
    NUM_VIEWS, State.mk.injEq]

lemma c1_s31 : tick noInput (State.mk 0 true true true true true true true false true false 0 48 48 4 4 (-2) 1 2) =
    State.mk 0 true true true true true true true false true true 0 48 48 2 5 (-2) 1 2 := by
  norm_num [tick, b_toggle, pong_controls, normal_controls, paddle_up,
    paddle_down, speed_dec, speed_inc, restart_ctl, update_last, update_pong_game,
    pong_move, pong_walls, pong_left, pong_right, reset_pong_game, py_int, edge, signVal,
    dyVal, iStart, iStartL, iDR, iD, iR, iA, iLU, noInput, r0, initState, oled_width,
    oled_height, PADDLE_WIDTH, PADDLE_HEIGHT, PADDLE_LEFT_X, PADDLE_RIGHT_X, BALL_RADIUS,
    NUM_VIEWS, State.mk.injEq]

lemma c1_run : run c1_trace =
    State.mk 0 true true true true true true true false true true 0 48 48 2 5 (-2) 1 2 := by
  simp only [run, c1_trace, List.foldl]
  rw [c1_s1, c1_s2, c1_s3, c1_s4, c1_s5, c1_s6, c1_s7, c1_s8, c1_s9, c1_s10, c1_s11, c1_s12, c1_s13, c1_s14, c1_s15, c1_s16, c1_s17, c1_s18, c1_s19, c1_s20, c1_s21, c1_s22, c1_s23, c1_s24, c1_s25, c1_s26, c1_s27, c1_s28, c1_s29, c1_s30, c1_s31]

lemma c1_s32 : tick iLU (State.mk 0 true true true true true true true false true true 0 48 48 2 5 (-2) 1 2) =
    State.mk 0 false true true true false true true false true true 0 40 40 2 5 (-1) 1 1 := by
  norm_num [tick, b_toggle, pong_controls, normal_controls, paddle_up,
    paddle_down, speed_dec, speed_inc, restart_ctl, update_last, update_pong_game,
    pong_move, pong_walls, pong_left, pong_right, reset_pong_game, py_int, edge, signVal,
    dyVal, iStart, iStartL, iDR, iD, iR, iA, iLU, noInput, r0, initState, oled_width,
    oled_height, PADDLE_WIDTH, PADDLE_HEIGHT, PADDLE_LEFT_X, PADDLE_RIGHT_X, BALL_RADIUS,
    NUM_VIEWS, State.mk.injEq]

lemma c2_s1 : tick iA (initState) =
    State.mk 0 true true false true true true true true false false 0 0 0 0 0 0 0 2 := by
  norm_num [tick, b_toggle, pong_controls, normal_controls, paddle_up,
    paddle_down, speed_dec, speed_inc, restart_ctl, update_last, update_pong_game,
    pong_move, pong_walls, pong_left, pong_right, reset_pong_game, py_int, edge, signVal,
    dyVal, iStart, iStartL, iDR, iD, iR, iA, iLU, noInput, r0, initState, oled_width,
    oled_height, PADDLE_WIDTH, PADDLE_HEIGHT, PADDLE_LEFT_X, PADDLE_RIGHT_X, BALL_RADIUS,
    NUM_VIEWS, State.mk.injEq]

lemma c2_s2 : tick iD (State.mk 0 true true false true true true true true false false 0 0 0 0 0 0 0 2) =
    State.mk 1 true false true true true true true true false false 0 0 0 0 0 0 0 2 := by
  norm_num [tick, b_toggle, pong_controls, normal_controls, paddle_up,
    paddle_down, speed_dec, speed_inc, restart_ctl, update_last, update_pong_game,
    pong_move, pong_walls, pong_left, pong_right, reset_pong_game, py_int, edge, signVal,
    dyVal, iStart, iStartL, iDR, iD, iR, iA, iLU, noInput, r0, initState, oled_width,
    oled_height, PADDLE_WIDTH, PADDLE_HEIGHT, PADDLE_LEFT_X, PADDLE_RIGHT_X, BALL_RADIUS,
    NUM_VIEWS, State.mk.injEq]

lemma c2_s3 : tick iA (State.mk 1 true false true true true true true true false false 0 0 0 0 0 0 0 2) =
    State.mk 1 true true false true true true true false false false 0 0 0 0 0 0 0 2 := by
  norm_num [tick, b_toggle, pong_controls, normal_controls, paddle_up,
    paddle_down, speed_dec, speed_inc, restart_ctl, update_last, update_pong_game,
    pong_move, pong_walls, pong_left, pong_right, reset_pong_game, py_int, edge, signVal,
    dyVal, iStart, iStartL, iDR, iD, iR, iA, iLU, noInput, r0, initState, oled_width,
    oled_height, PADDLE_WIDTH, PADDLE_HEIGHT, PADDLE_LEFT_X, PADDLE_RIGHT_X, BALL_RADIUS,
    NUM_VIEWS, State.mk.injEq]

/-! ### Claims -/

/-- C5: after every call to `reset_pong_game`, both paddles sit at
`(playfield_height - PADDLE_HEIGHT) / 2 = 24`, the ball sits at the
playfield center `(64, 32)`, `ball_dx` equals `ball_speed` times a sign
drawn from `{+1, -1}`, `ball_dy` equals `ball_speed` times a value drawn
from `{0.5, -0.5, 1, -1}`, the state is Playing (`pong_game_over = false`)
and the score is `0`. -/
theorem c5_reset_state (r : Rand) (s : State) :
    (reset_pong_game r s).paddle_left_y = (oled_height - PADDLE_HEIGHT) / 2 ∧
    (reset_pong_game r s).paddle_left_y = 24 ∧
    (reset_pong_game r s).paddle_right_y = 24 ∧
    (reset_pong_game r s).ball_x = 64 ∧
    (reset_pong_game r s).ball_y = 32 ∧
    ((reset_pong_game r s).ball_dx = s.ball_speed * 1 ∨
      (reset_pong_game r s).ball_dx = s.ball_speed * (-1)) ∧
    ((reset_pong_game r s).ball_dy = s.ball_speed * (1 / 2) ∨
      (reset_pong_game r s).ball_dy = s.ball_speed * (-(1 / 2)) ∨
      (reset_pong_game r s).ball_dy = s.ball_speed * 1 ∨
      (reset_pong_game r s).ball_dy = s.ball_speed * (-1)) ∧
    (reset_pong_game r s).pong_game_over = false ∧
    (reset_pong_game r s).pong_score = 0 := by
  obtain ⟨sn, dyc, ul, ur⟩ := r
  refine ⟨rfl, ?_, ?_, ?_, ?_, ?_, ?_, rfl, rfl⟩
  · norm_num [reset_pong_game, oled_height, PADDLE_HEIGHT]
  · norm_num [reset_pong_game, oled_height, PADDLE_HEIGHT]
  · norm_num [reset_pong_game, oled_width]
  · norm_num [reset_pong_game, oled_height]
  · cases sn
    · exact Or.inl (by simp [reset_pong_game, signVal])
    · exact Or.inr (by simp [reset_pong_game, signVal])
  · fin_cases dyc
    · exact Or.inl rfl
    · exact Or.inr (Or.inl rfl)
    · exact Or.inr (Or.inr (Or.inl rfl))
    · exact Or.inr (Or.inr (Or.inr rfl))

/-- C7: a speed adjustment (`speed_inc` on an R edge, `speed_dec` on an L
edge) never modifies the y-velocity; when the x-velocity is nonzero it sets
its magnitude to the new speed while preserving its sign; repeated
increases are unbounded above (`n` presses add `n`), and decreases saturate
at the lower bound `1`. -/
theorem c7_speed_adjust (s : State) (n : Nat) :
    (speed_inc true s).ball_dy = s.ball_dy ∧
    (speed_dec true s).ball_dy = s.ball_dy ∧
    (s.ball_dx ≠ 0 → 0 ≤ s.ball_speed →
      |(speed_inc true s).ball_dx| = (speed_inc true s).ball_speed ∧
      ((speed_inc true s).ball_dx > 0 ↔ s.ball_dx > 0)) ∧
    (s.ball_dx ≠ 0 →
      |(speed_dec true s).ball_dx| = (speed_dec true s).ball_speed ∧
      ((speed_dec true s).ball_dx > 0 ↔ s.ball_dx > 0)) ∧
    ((speed_inc true)^[n] s).ball_speed = s.ball_speed + (n : ℚ) ∧
    1 ≤ (speed_dec true s).ball_speed ∧
    (s.ball_speed = 1 → (speed_dec true s).ball_speed = 1) := by
  refine ⟨?_, ?_, ?_, ?_, ?_, ?_, ?_⟩
  · simp only [speed_inc_frame]
  · simp only [speed_dec_frame]
  · intro hdx hsp
    simp only [speed_inc, if_true, hdx, ite_true, ne_eq, not_false_iff]
    split_ifs with hpos
    · refine ⟨?_, ?_⟩
      · rw [mul_one, abs_of_nonneg (by linarith)]
      · simp only [mul_one]
        constructor <;> intro <;> linarith
    · push_neg at hpos
      refine ⟨?_, ?_⟩
      · have hrw : (s.ball_speed + 1) * (-1 : ℚ) = -(s.ball_speed + 1) := by ring
        rw [hrw, abs_neg, abs_of_nonneg (by linarith)]
      · constructor
        · intro h'
          exfalso; nlinarith
        · intro h'
          exfalso; linarith
  · intro hdx
    have h1 : (1 : ℚ) ≤ max 1 (s.ball_speed - 1) := le_max_left _ _
    simp only [speed_dec, if_true, hdx, ite_true, ne_eq, not_false_iff]
    split_ifs with hpos
    · refine ⟨?_, ?_⟩
      · rw [mul_one, abs_of_nonneg (by linarith)]
      · simp only [mul_one]
        constructor <;> intro <;> linarith
    · push_neg at hpos
      refine ⟨?_, ?_⟩
      · have hrw : max 1 (s.ball_speed - 1) * (-1 : ℚ) = -(max 1 (s.ball_speed - 1)) := by
          ring
        rw [hrw, abs_neg, abs_of_nonneg (by linarith)]
      · constructor
        · intro h'
          exfalso; nlinarith
        · intro h'
          exfalso; linarith
  · induction n with
    | zero => simp
    | succ k ih =>
      rw [Function.iterate_succ_apply', speed_inc_speed, ih]
      push_cast
      ring
  · simp only [speed_dec, if_true]
    split_ifs <;> exact le_max_left _ _
  · intro h1
    simp only [speed_dec, if_true, h1]
    split_ifs <;> norm_num

/-- Witness for c7_speed_adjust: the ball moving right at `dx = 2` with
speed `2`; an R edge keeps the sign and matches the new speed, and three R
edges raise the speed by three. -/
theorem c7_witness :
    (|(speed_inc true { initState with ball_dx := 2 }).ball_dx| =
        (speed_inc true { initState with ball_dx := 2 }).ball_speed ∧
      ((speed_inc true { initState with ball_dx := 2 }).ball_dx > 0 ↔
        ({ initState with ball_dx := 2 } : State).ball_dx > 0)) ∧
    ((speed_inc true)^[3] { initState with ball_dx := 2 }).ball_speed =
      ({ initState with ball_dx := 2 } : State).ball_speed + ((3 : ℕ) : ℚ) := by
  have h := c7_speed_adjust { initState with ball_dx := 2 } 3
  exact ⟨h.2.2.1 (by norm_num) (by norm_num [initState]), h.2.2.2.2.1⟩

/-- C8: for every button and every tick, a press edge fires exactly when
the button is sampled pressed this tick and was not pressed on the
previous tick, and the stored previous level is updated to the current
sample (`not pressed`) unconditionally every tick, for every button,
whatever the active mode. -/
theorem c8_edge_detection (i : Input) (s : State) (prev now : Bool) :
    (tick i s).last_button_u = !i.u ∧
    (tick i s).last_button_d = !i.d ∧
    (tick i s).last_button_a = !i.a ∧
    (tick i s).last_button_b = !i.b ∧
    (tick i s).last_button_l = !i.l ∧
    (tick i s).last_button_r = !i.r ∧
    (tick i s).last_button_c = !i.c ∧
    (edge now (!prev) = true ↔ (now = true ∧ prev = false)) := by
  refine ⟨?_, ?_, ?_, ?_, ?_, ?_, ?_, ?_⟩ <;>
    first
      | (simp only [tick]
         split_ifs <;> simp [update_pong_game_frame, update_last])
      | (cases now <;> cases prev <;> simp [edge])

/-- C9 (implicit): the two paddles always share a vertical position —
`paddle_left_y = paddle_right_y` holds after `reset_pong_game` and is
preserved by every main-loop iteration. -/
theorem c9_paddles_together (i : Input) (r : Rand) (s : State)
    (h : s.paddle_left_y = s.paddle_right_y) :
    (tick i s).paddle_left_y = (tick i s).paddle_right_y ∧
    (reset_pong_game r s).paddle_left_y = (reset_pong_game r s).paddle_right_y := by
  refine ⟨?_, rfl⟩
  have h1 : (b_toggle i s).paddle_left_y = (b_toggle i s).paddle_right_y := by
    simp only [b_toggle]
    split_ifs <;> simp [reset_pong_game, h]
  simp only [tick]
  split_ifs <;>
    simp only [update_pong_game_frame, update_last] <;>
    first
      | exact pong_controls_paddles i _ h1
      | simpa only [normal_controls_frame] using h1

/-- Witness for c9_paddles_together at the initial state. -/
theorem c9_witness :
    (tick noInput initState).paddle_left_y = (tick noInput initState).paddle_right_y ∧
    (reset_pong_game r0 initState).paddle_left_y =
      (reset_pong_game r0 initState).paddle_right_y :=
  c9_paddles_together noInput r0 initState rfl

/-- C10 (implicit): `reset_pong_game` does not reset `ball_speed` (the
speed chosen via L/R persists across restarts and re-entries of Game
mode); only program start gives speed `2`; score, ball and paddle fields
are re-initialized by every reset; and a tick without an L or R edge
leaves `ball_speed` unchanged. -/
theorem c10_speed_persistence (r : Rand) (i : Input) (s : State) :
    (reset_pong_game r s).ball_speed = s.ball_speed ∧
    initState.ball_speed = 2 ∧
    (reset_pong_game r s).pong_score = 0 ∧
    (reset_pong_game r s).ball_x = 64 ∧
    (reset_pong_game r s).paddle_left_y = 24 ∧
    (edge i.l s.last_button_l = false → edge i.r s.last_button_r = false →
      (tick i s).ball_speed = s.ball_speed) := by
  refine ⟨rfl, rfl, rfl, ?_, ?_, ?_⟩
  · norm_num [reset_pong_game, oled_width]
  · norm_num [reset_pong_game, oled_height, PADDLE_HEIGHT]
  · intro hl hr
    simp only [tick]
    split_ifs <;>
      simp [update_pong_game_frame, update_last, pong_controls, normal_controls_frame,
        b_toggle_frame, hl, hr, speed_dec, speed_inc, restart_ctl_frame,
        paddle_down_frame, paddle_up_frame]

lemma pong_move_set_c (v : Bool) (s : State) :
    pong_move { s with last_button_c := v } = { pong_move s with last_button_c := v } := rfl

lemma pong_walls_set_c (v : Bool) (s : State) :
    pong_walls { s with last_button_c := v } = { pong_walls s with last_button_c := v } := by
  unfold pong_walls
  split_ifs <;> rfl

lemma pong_left_set_c (r : Rand) (v : Bool) (s : State) :
    pong_left r { s with last_button_c := v } = { pong_left r s with last_button_c := v } := by
  unfold pong_left
  split_ifs <;> rfl

lemma pong_right_set_c (r : Rand) (v : Bool) (s : State) :
    pong_right r { s with last_button_c := v } = { pong_right r s with last_button_c := v } := by
  unfold pong_right
  split_ifs <;> rfl

lemma update_pong_game_set_c (r : Rand) (v : Bool) (s : State) :
    update_pong_game r { s with last_button_c := v } =
      { update_pong_game r s with last_button_c := v } := by
  unfold update_pong_game
  split_ifs <;>
    first
      | rfl
      | rw [pong_move_set_c, pong_walls_set_c, pong_left_set_c, pong_right_set_c]

lemma pong_controls_c_irrel (i : Input) (t : State) (h : t.pong_game_over = false) :
    pong_controls { i with c := true } t = pong_controls { i with c := false } t := by
  have hC : ∀ x : Bool, pong_controls { i with c := x } t =
      restart_ctl (edge x t.last_button_c) i.rnd
        (speed_inc (edge i.r t.last_button_r)
          (speed_dec (edge i.l t.last_button_l)
            (paddle_down i.d (paddle_up i.u t)))) := fun _ => rfl
  rw [hC true, hC false]
  have hT : (speed_inc (edge i.r t.last_button_r)
      (speed_dec (edge i.l t.last_button_l)
        (paddle_down i.d (paddle_up i.u t)))).pong_game_over = false := by
    simp only [speed_inc_frame, speed_dec_frame, paddle_down_frame, paddle_up_frame, h]
  unfold restart_ctl
  simp [hT]

lemma update_last_c (i : Input) (t : State) :
    update_last { i with c := true } t =
      { update_last { i with c := false } t with last_button_c := false } := rfl

/-- C6: the restart control (`restart_ctl`, the C-edge handler) has an
effect only when the game state is GameOver, where it performs a full
reset; while Playing a restart request is a strict no-op, and a whole loop
iteration with C pressed differs from one without only in the stored
previous C level. -/
theorem c6_restart_gated (e : Bool) (r : Rand) (i : Input) (s : State) :
    (s.pong_game_over = false → restart_ctl e r s = s) ∧
    (s.pong_game_over = true → restart_ctl true r s = reset_pong_game r s) ∧
    restart_ctl false r s = s ∧
    (s.pong_game_over = false →
      tick { i with c := true } s =
        { tick { i with c := false } s with last_button_c := false }) := by
  refine ⟨?_, ?_, ?_, ?_⟩
  · intro h
    simp [restart_ctl, h]
  · intro h
    simp [restart_ctl, h]
  · simp [restart_ctl]
  · intro hgo
    have hbt : ∀ x : Bool, b_toggle { i with c := x } s = b_toggle i s := fun _ => rfl
    have hgo' : (b_toggle i s).pong_game_over = false := by
      simp only [b_toggle]
      split_ifs <;> simp [reset_pong_game, hgo]
    have hs2 : (if (b_toggle i s).pong_mode = true
          then pong_controls { i with c := true } (b_toggle i s)
          else normal_controls { i with c := true } (b_toggle i s)) =
        (if (b_toggle i s).pong_mode = true
          then pong_controls { i with c := false } (b_toggle i s)
          else normal_controls { i with c := false } (b_toggle i s)) := by
      split_ifs
      · exact pong_controls_c_irrel i (b_toggle i s) hgo'
      · rfl
    simp only [tick, hbt]
    rw [hs2]
    rw [update_last_c i]
    set U := update_last { i with c := false }
      (if (b_toggle i s).pong_mode = true
        then pong_controls { i with c := false } (b_toggle i s)
        else normal_controls { i with c := false } (b_toggle i s)) with hU
    have hrnd : ({ i with c := true } : Input).rnd = i.rnd := rfl
    have hrnd' : ({ i with c := false } : Input).rnd = i.rnd := rfl
    simp only [hrnd, hrnd']
    split_ifs with hm
    · exact update_pong_game_set_c i.rnd false U
    · rfl

/-- Witness for c6_restart_gated: a C press from the fresh (Playing-free)
initial state is a strict no-op at the control level, and a full tick with
C pressed only flips the stored C level. -/
theorem c6_witness :
    restart_ctl true r0 initState = initState ∧
    tick { noInput with c := true } initState =
      { tick { noInput with c := false } initState with last_button_c := false } := by
  have h := c6_restart_gated true r0 noInput initState
  exact ⟨h.1 rfl, h.2.2.2 rfl⟩

lemma py_int_of_nonneg (q : ℚ) (h : 0 ≤ q) : py_int q = ⌊q⌋ := by
  simp [py_int, h]

lemma b_toggle_skip (i : Input) (s : State) (h : edge i.b s.last_button_b = false) :
    b_toggle i s = s := by
  simp [b_toggle, h]

lemma restart_ctl_false (r : Rand) (s : State) : restart_ctl false r s = s := by
  simp [restart_ctl]

lemma update_pong_game_over (r : Rand) (s : State) (h : s.pong_game_over = true) :
    update_pong_game r s = s := by
  unfold update_pong_game
  rw [if_pos h]

lemma tick_pong (i : Input) (s : State) (hb : edge i.b s.last_button_b = false)
    (hm : s.pong_mode = true) :
    tick i s = update_pong_game i.rnd (update_last i (pong_controls i s)) := by
  simp only [tick, b_toggle_skip i s hb]
  rw [if_pos hm]
  have h3 : (update_last i (pong_controls i s)).pong_mode = true := by
    simp only [update_last, pong_controls_frame]
    exact hm
  rw [if_pos h3]

lemma update_last_frame (i : Input) (s : State) :
    (update_last i s).current_view = s.current_view ∧
    (update_last i s).name_mode = s.name_mode ∧
    (update_last i s).pong_mode = s.pong_mode ∧
    (update_last i s).pong_game_over = s.pong_game_over ∧
    (update_last i s).pong_score = s.pong_score ∧
    (update_last i s).paddle_left_y = s.paddle_left_y ∧
    (update_last i s).paddle_right_y = s.paddle_right_y ∧
    (update_last i s).ball_x = s.ball_x ∧
    (update_last i s).ball_y = s.ball_y ∧
    (update_last i s).ball_dx = s.ball_dx ∧
    (update_last i s).ball_dy = s.ball_dy ∧
    (update_last i s).ball_speed = s.ball_speed :=
  ⟨rfl, rfl, rfl, rfl, rfl, rfl, rfl, rfl, rfl, rfl, rfl, rfl⟩

lemma tick_normal (i : Input) (s : State) (hb : edge i.b s.last_button_b = false)
    (hm : s.pong_mode = false) :
    tick i s = update_last i (normal_controls i s) := by
  simp only [tick, b_toggle_skip i s hb]
  have hnm : ¬(s.pong_mode = true) := by simp [hm]
  rw [if_neg hnm]
  have h3 : ¬((update_last i (normal_controls i s)).pong_mode = true) := by
    simp only [update_last_frame, normal_controls_frame]
    simp [hm]
  rw [if_neg h3]

lemma BALL_RADIUS_q : (BALL_RADIUS : ℚ) = 3 := by norm_num [BALL_RADIUS]

lemma PADDLE_RIGHT_X_q : (PADDLE_RIGHT_X : ℚ) = 123 := by
  norm_num [PADDLE_RIGHT_X, oled_width, PADDLE_WIDTH]

lemma oled_width_q : (oled_width : ℚ) = 128 := by norm_num [oled_width]

lemma oled_height_q : (oled_height : ℚ) = 64 := by norm_num [oled_height]

lemma left_edge_q : ((PADDLE_LEFT_X + PADDLE_WIDTH : Int) : ℚ) = 5 := by
  norm_num [PADDLE_LEFT_X, PADDLE_WIDTH]

lemma pong_left_skip (r : Rand) (t : State)
    (h : ¬ t.ball_x - (BALL_RADIUS : ℚ) ≤ ((PADDLE_LEFT_X + PADDLE_WIDTH : Int) : ℚ)) :
    pong_left r t = t := by
  unfold pong_left
  rw [if_neg h]

lemma left_spot_q : ((PADDLE_LEFT_X + PADDLE_WIDTH + BALL_RADIUS : Int) : ℚ) = 8 := by
  norm_num [PADDLE_LEFT_X, PADDLE_WIDTH, BALL_RADIUS]

lemma PADDLE_LEFT_X_q : (PADDLE_LEFT_X : ℚ) = 2 := by norm_num [PADDLE_LEFT_X]

lemma PADDLE_WIDTH_q : (PADDLE_WIDTH : ℚ) = 3 := by norm_num [PADDLE_WIDTH]

lemma PADDLE_HEIGHT_q : (PADDLE_HEIGHT : ℚ) = 16 := by norm_num [PADDLE_HEIGHT]

lemma right_spot_q : ((PADDLE_RIGHT_X - BALL_RADIUS : Int) : ℚ) = 120 := by
  norm_num [PADDLE_RIGHT_X, oled_width, PADDLE_WIDTH, BALL_RADIUS]

lemma pong_walls_y_mem (s : State) :
    (BALL_RADIUS : ℚ) ≤ (pong_walls s).ball_y ∧
    (pong_walls s).ball_y ≤ (oled_height : ℚ) - (BALL_RADIUS : ℚ) := by
  unfold pong_walls
  split_ifs with h1 h2
  · refine ⟨le_refl _, ?_⟩
    norm_num [BALL_RADIUS_q, oled_height_q]
  · refine ⟨?_, le_refl _⟩
    norm_num [BALL_RADIUS_q, oled_height_q]
  · push_neg at h1 h2
    exact ⟨le_of_lt h1, le_of_lt h2⟩

lemma pong_phases_x_bound (r : Rand) (t : State)
    (h2 : (pong_right r (pong_left r t)).pong_game_over = false) :
    0 ≤ (pong_right r (pong_left r t)).ball_x ∧
    (pong_right r (pong_left r t)).ball_x < (oled_width : ℚ) := by
  unfold pong_left pong_right at h2 ⊢
  split_ifs at h2 ⊢ <;>
    simp_all [BALL_RADIUS_q, PADDLE_RIGHT_X_q, oled_width_q, left_edge_q, left_spot_q,
      right_spot_q, PADDLE_LEFT_X_q, PADDLE_WIDTH_q, PADDLE_HEIGHT_q] <;>
    constructor <;> linarith

/-- C4: in a Playing state (with a moving ball) whose post-move position
satisfies `ball_x + BALL_RADIUS >= PADDLE_RIGHT_X`: when the ball's y lies
within the right paddle's vertical extent the step makes `ball_dx`
negative, repositions the ball at `PADDLE_RIGHT_X - BALL_RADIUS` and adds
`floor(ball_speed)` to the score, leaving the game Playing (the hit check
takes priority over the miss check); and only when the vertical
intersection fails does `ball_x + BALL_RADIUS >= width` end the game. -/
theorem c4_right_paddle (r : Rand) (s : State)
    (hplay : s.pong_game_over = false)
    (hdx : s.ball_dx ≠ 0)
    (hsp : 0 ≤ s.ball_speed)
    (hx : (pong_walls (pong_move s)).ball_x + (BALL_RADIUS : ℚ) ≥ (PADDLE_RIGHT_X : ℚ)) :
    ((s.paddle_right_y : ℚ) ≤ (pong_walls (pong_move s)).ball_y ∧
        (pong_walls (pong_move s)).ball_y ≤ ((s.paddle_right_y + PADDLE_HEIGHT : Int) : ℚ) →
      (update_pong_game r s).ball_dx < 0 ∧
      (update_pong_game r s).ball_x = ((PADDLE_RIGHT_X - BALL_RADIUS : Int) : ℚ) ∧
      (update_pong_game r s).pong_score = s.pong_score + ⌊s.ball_speed⌋ ∧
      (update_pong_game r s).pong_game_over = false) ∧
    (¬ ((s.paddle_right_y : ℚ) ≤ (pong_walls (pong_move s)).ball_y ∧
        (pong_walls (pong_move s)).ball_y ≤ ((s.paddle_right_y + PADDLE_HEIGHT : Int) : ℚ)) →
      ((update_pong_game r s).pong_game_over = true ↔
        (pong_walls (pong_move s)).ball_x + (BALL_RADIUS : ℚ) ≥ (oled_width : ℚ))) := by
  set t := pong_walls (pong_move s) with ht
  have htx : t.ball_x = s.ball_x + s.ball_dx := by
    rw [ht]
    simp only [pong_walls_frame, pong_move]
  have htdx : t.ball_dx = s.ball_dx := by
    rw [ht]; simp only [pong_walls_frame, pong_move_frame]
  have htsc : t.pong_score = s.pong_score := by
    rw [ht]; simp only [pong_walls_frame, pong_move_frame]
  have htsp : t.ball_speed = s.ball_speed := by
    rw [ht]; simp only [pong_walls_frame, pong_move_frame]
  have htgo : t.pong_game_over = false := by
    rw [ht]; simp only [pong_walls_frame, pong_move_frame, hplay]
  have htpr : t.paddle_right_y = s.paddle_right_y := by
    rw [ht]; simp only [pong_walls_frame, pong_move_frame]
  have hskip : pong_left r t = t := by
    apply pong_left_skip
    rw [BALL_RADIUS_q, left_edge_q]
    rw [BALL_RADIUS_q, PADDLE_RIGHT_X_q] at hx
    linarith
  have hupd : update_pong_game r s = pong_right r t := by
    unfold update_pong_game
    rw [if_neg (by simp [hplay]), ← ht, hskip]
  rw [hupd]
  constructor
  · intro hhit
    have hhit' : (t.paddle_right_y : ℚ) ≤ t.ball_y ∧
        t.ball_y ≤ ((t.paddle_right_y + PADDLE_HEIGHT : Int) : ℚ) := by
      rw [htpr]; exact hhit
    unfold pong_right
    rw [if_pos hx, if_pos hhit']
    refine ⟨?_, rfl, ?_, ?_⟩
    · simp only [htdx]
      exact neg_lt_zero.mpr (abs_pos.mpr hdx)
    · simp only [htsc, htsp, py_int_of_nonneg s.ball_speed hsp]
    · exact htgo
  · intro hmiss
    have hmiss' : ¬ ((t.paddle_right_y : ℚ) ≤ t.ball_y ∧
        t.ball_y ≤ ((t.paddle_right_y + PADDLE_HEIGHT : Int) : ℚ)) := by
      rw [htpr]; exact hmiss
    unfold pong_right
    rw [if_pos hx, if_neg hmiss']
    split_ifs with hback
    · simp [hback]
    · simp [htgo, hback]

/-- Witness for c4_right_paddle: with the right paddle at `24` (covering
`[24, 40]`) the ball at `(122, 32)` bounces and scores; with the paddle at
`0` (covering `[0, 16]`) the miss case's game-over test applies. -/
theorem c4_witness :
    ((update_pong_game r0 (c4state 24)).ball_dx < 0 ∧
      (update_pong_game r0 (c4state 24)).ball_x = ((PADDLE_RIGHT_X - BALL_RADIUS : Int) : ℚ) ∧
      (update_pong_game r0 (c4state 24)).pong_score = (c4state 24).pong_score + ⌊(2 : ℚ)⌋ ∧
      (update_pong_game r0 (c4state 24)).pong_game_over = false) ∧
    ((update_pong_game r0 (c4state 0)).pong_game_over = true ↔
      (pong_walls (pong_move (c4state 0))).ball_x + (BALL_RADIUS : ℚ) ≥ (oled_width : ℚ)) := by
  have hwalls : ∀ p : Int, pong_walls (pong_move (c4state p)) =
      { c4state p with ball_x := 122, ball_y := 32 } := by
    intro p
    unfold pong_walls pong_move
    rw [if_neg (by norm_num [c4state, initState, BALL_RADIUS_q]),
      if_neg (by norm_num [c4state, initState, BALL_RADIUS_q, oled_height_q])]
    norm_num [c4state, initState]
  have h1 := c4_right_paddle r0 (c4state 24)
    rfl (by norm_num [c4state, initState]) (by norm_num [c4state, initState])
    (by rw [hwalls]; norm_num [c4state, initState, BALL_RADIUS_q, PADDLE_RIGHT_X_q])
  have h2 := c4_right_paddle r0 (c4state 0)
    rfl (by norm_num [c4state, initState]) (by norm_num [c4state, initState])
    (by rw [hwalls]; norm_num [c4state, initState, BALL_RADIUS_q, PADDLE_RIGHT_X_q])
  have hfl : (⌊(c4state 24).ball_speed⌋ : Int) = ⌊(2 : ℚ)⌋ := by
    norm_num [c4state, initState]
  refine ⟨?_, h2.2 ?_⟩
  · have := h1.1 ?_
    · exact ⟨this.1, this.2.1, by rw [this.2.2.1, hfl], this.2.2.2⟩
    · rw [hwalls]
      norm_num [c4state, initState, PADDLE_HEIGHT]
  · rw [hwalls]
    norm_num [c4state, initState, PADDLE_HEIGHT]

lemma speed_inc_false (s : State) : speed_inc false s = s := rfl

lemma speed_dec_false (s : State) : speed_dec false s = s := rfl

lemma paddle_down_false (s : State) : paddle_down false s = s := rfl

lemma speed_dec_speed (s : State) : (speed_dec true s).ball_speed = max 1 (s.ball_speed - 1) := by
  simp only [speed_dec, if_true]
  split_ifs <;> rfl

lemma paddle_up_true (s : State) :
    (paddle_up true s).paddle_left_y = max 0 (s.paddle_left_y - 8) ∧
    (paddle_up true s).paddle_right_y = max 0 (s.paddle_right_y - 8) := by
  simp [paddle_up]

/-- C1 counterexample: a reachable trace enters Pong moving left, parks the
paddles at the bottom and lets the ball pass the left paddle, reaching
`GameOver` with speed `2`, `dx = -2`, paddles at `48`.  One further tick
holding Up and pressing L — while still GameOver and with no reset — drops
`ball_speed` to `1`, rescales `ball_dx` to `-1` and moves both paddles to
`40`: speed-adjust and paddle-move inputs are not ignored during
GameOver. -/
theorem c1_counterexample :
    Reaches (run c1_trace) ∧
    (run c1_trace).pong_mode = true ∧
    (run c1_trace).pong_game_over = true ∧
    (run c1_trace).ball_speed = 2 ∧
    (run c1_trace).paddle_left_y = 48 ∧
    (run c1_trace).paddle_right_y = 48 ∧
    (run c1_trace).ball_dx = -2 ∧
    (tick iLU (run c1_trace)).pong_game_over = true ∧
    (tick iLU (run c1_trace)).ball_speed = 1 ∧
    (tick iLU (run c1_trace)).paddle_left_y = 40 ∧
    (tick iLU (run c1_trace)).paddle_right_y = 40 ∧
    (tick iLU (run c1_trace)).ball_dx = -1 := by
  refine ⟨⟨c1_trace, ?_, rfl⟩, ?_⟩
  · intro i hi
    have hv : validInput noInput := by norm_num [validInput, noInput, r0]
    simp only [c1_trace, List.mem_cons, List.not_mem_nil, or_false] at hi
    rcases hi with h | h | h | h | h | h | h | h | h | h | h | h | h | h | h | h | h |
      h | h | h | h | h | h | h | h | h | h | h | h | h | h <;> subst h <;> exact hv
  · rw [c1_run, c1_s32]
    exact ⟨rfl, rfl, rfl, rfl, rfl, rfl, rfl, rfl, rfl, rfl, rfl⟩

/-- C1 (amended): while the game state is GameOver (Pong mode on, no B or
C edge in the tick), button inputs are still applied rather than ignored:
an L edge (without an R edge) still sets `ball_speed` to
`max 1 (ball_speed - 1)`, and a held Up (without Down) still moves both
paddles up by `8` with the usual clamp; only the restart control is gated
on the game state. -/
theorem c1_controls_not_gated (i : Input) (s : State)
    (hmode : s.pong_mode = true)
    (_hover : s.pong_game_over = true)
    (hb : edge i.b s.last_button_b = false)
    (hc : edge i.c s.last_button_c = false) :
    (edge i.l s.last_button_l = true → edge i.r s.last_button_r = false →
      (tick i s).ball_speed = max 1 (s.ball_speed - 1)) ∧
    (i.u = true → i.d = false →
      (tick i s).paddle_left_y = max 0 (s.paddle_left_y - 8) ∧
      (tick i s).paddle_right_y = max 0 (s.paddle_right_y - 8)) := by
  have hpc : pong_controls i s =
      speed_inc (edge i.r s.last_button_r)
        (speed_dec (edge i.l s.last_button_l)
          (paddle_down i.d (paddle_up i.u s))) := by
    unfold pong_controls
    rw [hc, restart_ctl_false]
  rw [tick_pong i s hb hmode]
  constructor
  · intro hl hr
    simp only [update_pong_game_frame, update_last_frame, hpc, hl, hr, speed_inc_false,
      speed_dec_speed, paddle_down_frame, paddle_up_frame]
  · intro hu hd
    simp only [update_pong_game_frame, update_last_frame, hpc, hu, hd, speed_inc_frame,
      speed_dec_frame, paddle_down_false, paddle_up_true, and_self]

/-- Witness for c1_controls_not_gated at the `c1wit` GameOver state with L
and Up pressed. -/
theorem c1_witness :
    (tick iLU c1wit).ball_speed = max 1 (c1wit.ball_speed - 1) ∧
    (tick iLU c1wit).paddle_left_y = max 0 (c1wit.paddle_left_y - 8) ∧
    (tick iLU c1wit).paddle_right_y = max 0 (c1wit.paddle_right_y - 8) := by
  have h := c1_controls_not_gated iLU c1wit rfl rfl rfl rfl
  exact ⟨h.1 rfl rfl, (h.2 rfl rfl).1, (h.2 rfl rfl).2⟩

/-- C2 counterexample: from program start, press A (banner on, view 0),
then Down while the banner is on, then A again (banner off): the view
index is now 1, not the 0 held when the banner was toggled on — Up/Down
edges are consumed for view navigation even while the banner is active. -/
theorem c2_counterexample :
    (run [iA]).name_mode = true ∧
    (run [iA]).current_view = 0 ∧
    (run [iA, iD, iA]).name_mode = false ∧
    (run [iA, iD, iA]).current_view = 1 := by
  have h1 : run [iA] = tick iA initState := by
    simp only [run, List.foldl]
  have h3 : run [iA, iD, iA] = tick iA (tick iD (tick iA initState)) := by
    simp only [run, List.foldl]
  rw [h1, h3, c2_s1, c2_s2, c2_s3]
  exact ⟨rfl, rfl, rfl, rfl⟩

/-- C2 (amended): while Pong mode is off, the banner state never gates
view navigation: a tick with no Up/Down edge leaves `view_index` unchanged
(in particular the A toggle itself does not move it), but a Down edge
delivered while the banner is on still advances `view_index` modulo
`NUM_VIEWS`; so the held view is restored after a banner on/off pair
exactly when no Up/Down edge fired in between. -/
theorem c2_view_nav_not_blocked (i : Input) (s : State)
    (hmode : s.pong_mode = false)
    (hb : edge i.b s.last_button_b = false) :
    (edge i.u s.last_button_u = false → edge i.d s.last_button_d = false →
      (tick i s).current_view = s.current_view) ∧
    (edge i.u s.last_button_u = false → edge i.d s.last_button_d = true →
      (tick i s).current_view = (s.current_view + 1) % NUM_VIEWS) := by
  constructor
  · intro hu hd
    rw [tick_normal i s hb hmode]
    simp only [update_last]
    simp only [normal_controls]
    split_ifs <;> simp_all
  · intro hu hd
    rw [tick_normal i s hb hmode]
    simp only [update_last]
    simp only [normal_controls]
    split_ifs <;> simp_all

/-- Witness for c2_view_nav_not_blocked: with the banner on over view 0, an
empty tick keeps the view and a Down tick advances it. -/
theorem c2_witness :
    (tick noInput { initState with name_mode := true }).current_view =
      ({ initState with name_mode := true } : State).current_view ∧
    (tick iD { initState with name_mode := true }).current_view =
      (({ initState with name_mode := true } : State).current_view + 1) % NUM_VIEWS := by
  have h1 := c2_view_nav_not_blocked noInput { initState with name_mode := true } rfl rfl
  have h2 := c2_view_nav_not_blocked iD { initState with name_mode := true } rfl rfl
  exact ⟨h1.1 rfl rfl, h2.2 rfl rfl⟩

/-- C3 counterexample: a reachable Playing state exists — enter Pong
rightward, park the paddles at the bottom, pump the speed to 8 with R
edges, ball at `(124, 20)` — from which one step of `update_pong_game`
ends at `ball_x = 132 ≥ 128`: after a game-ending step the ball position
is NOT within `[0, playfield_width)`. -/
theorem c3_counterexample :
    Reaches (run c3_trace) ∧
    (run c3_trace).pong_mode = true ∧
    (run c3_trace).pong_game_over = false ∧
    (update_pong_game r0 (run c3_trace)).ball_x = 132 ∧
    (update_pong_game r0 (run c3_trace)).pong_game_over = true ∧
    ¬ ((update_pong_game r0 (run c3_trace)).ball_x < (oled_width : ℚ)) := by
  refine ⟨⟨c3_trace, ?_, rfl⟩, ?_⟩
  · intro i hi
    have hv : validInput noInput := by norm_num [validInput, noInput, r0]
    simp only [c3_trace, List.mem_cons, List.not_mem_nil, or_false] at hi
    rcases hi with h | h | h | h | h | h | h | h | h | h | h | h <;> subst h <;> exact hv
  · rw [c3_run, c3_final]
    refine ⟨rfl, rfl, rfl, rfl, ?_⟩
    norm_num [oled_width_q]

/-- C3 (amended): from any Playing state, one step of `update_pong_game`
leaves `ball_y` within `[BALL_RADIUS, height - BALL_RADIUS]` (crossing the
top wall clamps `y` to `BALL_RADIUS` and negates `dy` in the wall phase,
crossing the bottom wall clamps to `height - BALL_RADIUS` and negates
`dy`); and whenever the step leaves the state still Playing, `ball_x` lies
within `[0, playfield_width)` — only a game-ending step can leave `x` out
of bounds. -/
theorem c3_ball_bounds (r : Rand) (s : State) (h : s.pong_game_over = false) :
    ((BALL_RADIUS : ℚ) ≤ (update_pong_game r s).ball_y ∧
      (update_pong_game r s).ball_y ≤ (oled_height : ℚ) - (BALL_RADIUS : ℚ)) ∧
    ((update_pong_game r s).pong_game_over = false →
      0 ≤ (update_pong_game r s).ball_x ∧
      (update_pong_game r s).ball_x < (oled_width : ℚ)) ∧
    (s.ball_y + s.ball_dy ≤ (BALL_RADIUS : ℚ) →
      (pong_walls (pong_move s)).ball_y = (BALL_RADIUS : ℚ) ∧
      (pong_walls (pong_move s)).ball_dy = -s.ball_dy) ∧
    (¬ s.ball_y + s.ball_dy ≤ (BALL_RADIUS : ℚ) →
      s.ball_y + s.ball_dy ≥ (oled_height : ℚ) - (BALL_RADIUS : ℚ) →
      (pong_walls (pong_move s)).ball_y = (oled_height : ℚ) - (BALL_RADIUS : ℚ) ∧
      (pong_walls (pong_move s)).ball_dy = -s.ball_dy) := by
  have hupd : update_pong_game r s = pong_right r (pong_left r (pong_walls (pong_move s))) := by
    unfold update_pong_game
    rw [if_neg (by simp [h])]
  refine ⟨?_, ?_, ?_, ?_⟩
  · rw [hupd]
    have hy : (pong_right r (pong_left r (pong_walls (pong_move s)))).ball_y =
        (pong_walls (pong_move s)).ball_y := by
      simp only [pong_right_frame, pong_left_frame]
    rw [hy]
    exact pong_walls_y_mem (pong_move s)
  · intro h2
    rw [hupd] at h2 ⊢
    exact pong_phases_x_bound r (pong_walls (pong_move s)) h2
  · intro hw
    have h1 : (pong_move s).ball_y ≤ (BALL_RADIUS : ℚ) := hw
    unfold pong_walls
    rw [if_pos h1]
    exact ⟨rfl, rfl⟩
  · intro hw1 hw2
    have h1 : ¬ ((pong_move s).ball_y ≤ (BALL_RADIUS : ℚ)) := hw1
    have h2 : (pong_move s).ball_y ≥ (oled_height : ℚ) - (BALL_RADIUS : ℚ) := hw2
    unfold pong_walls
    rw [if_neg h1, if_pos h2]
    exact ⟨rfl, rfl⟩

/-- Witness for c3_ball_bounds: the initial ball at the origin is clamped
into the playfield and the state stays Playing (left-paddle save at
`(8, 3)`); a ball crossing the top wall at `(0, 1)` is clamped to `y = 3`
with `dy` negated, and one crossing the bottom wall at `(0, 65)` is
clamped to `y = 61` with `dy` negated. -/
theorem c3_witness :
    ((BALL_RADIUS : ℚ) ≤ (update_pong_game r0 initState).ball_y ∧
      (update_pong_game r0 initState).ball_y ≤ (oled_height : ℚ) - (BALL_RADIUS : ℚ)) ∧
    (0 ≤ (update_pong_game r0 initState).ball_x ∧
      (update_pong_game r0 initState).ball_x < (oled_width : ℚ)) ∧
    ((pong_walls (pong_move c3low)).ball_y = (BALL_RADIUS : ℚ) ∧
      (pong_walls (pong_move c3low)).ball_dy = -c3low.ball_dy) ∧
    ((pong_walls (pong_move c3high)).ball_y = (oled_height : ℚ) - (BALL_RADIUS : ℚ) ∧
      (pong_walls (pong_move c3high)).ball_dy = -c3high.ball_dy) := by
  have h := c3_ball_bounds r0 initState rfl
  have hl := c3_ball_bounds r0 c3low rfl
  have hh := c3_ball_bounds r0 c3high rfl
  refine ⟨h.1, h.2.1 ?_, hl.2.2.1 ?_, hh.2.2.2 ?_ ?_⟩
  · norm_num [tick, b_toggle, pong_controls, normal_controls, paddle_up,
      paddle_down, speed_dec, speed_inc, restart_ctl, update_last, update_pong_game,
      pong_move, pong_walls, pong_left, pong_right, reset_pong_game, py_int, edge, signVal,
      dyVal, noInput, r0, initState, oled_width, oled_height, PADDLE_WIDTH, PADDLE_HEIGHT,
      PADDLE_LEFT_X, PADDLE_RIGHT_X, BALL_RADIUS, NUM_VIEWS]
  · norm_num [c3low, BALL_RADIUS_q]
  · norm_num [c3high, BALL_RADIUS_q]
  · norm_num [c3high, BALL_RADIUS_q, oled_height_q]

/-- Witness for c10_speed_persistence: a tick with no buttons pressed from
the initial state keeps the speed. -/
theorem c10_witness :
    (reset_pong_game r0 initState).ball_speed = initState.ball_speed ∧
    (tick noInput initState).ball_speed = initState.ball_speed := by
  have h := c10_speed_persistence r0 noInput initState
  exact ⟨h.1, h.2.2.2.2.2 rfl rfl⟩

end Pong
